import Mathlib

/-!
MonacoCabs backend: geofence check and fare computation

A shallow embedding of the helper functions and booking routes of
`monacocabsbackend/server.js`, of the distance, fare preview and booking
request of `monacocabsbackend/MapBookingScreen.js`, and of the fare shown by
`monacocabsbackend/BookingsScreen.js`.

Modelling conventions.

* JavaScript numbers are read as exact rationals: IEEE-754 rounding, overflow
  to `Infinity` and the sign of zero are not modelled.  `NaN` only arises here
  from converting a non-number to a number, and is the `none` of `toNumber`.
* Request bodies are parsed JSON, so a value is `undefined` (an absent field),
  `null`, a boolean, a number, a string or a plain object.  JSON arrays are not
  modelled.
* The conversion of a string to a number is the language runtime's; it is a
  parameter (`JsRuntime.stringToNumber`) of everything that may compare a
  string with a number.
* A thrown exception is the `error` of `Except`.
* The document-store library is a parameter (`Mongoose`): its schema casting,
  with the laws the proofs rely on stated as fields.
* The state of the server is the bookings collection; the user and driver
  collections are not modelled.
* The haversine distance of the map booking screen is read over the real
  numbers, with the real sine, cosine, square root and two-argument arctangent.
-/

namespace MonacoCabs

/-! ## JavaScript values -/

/-- A value found in a parsed JSON request body. -/
inductive JsVal where
  | undefined
  | null
  | bool (b : Bool)
  | num (q : ℚ)
  | str (s : String)
  | obj (fields : List (String × JsVal))

/-- Exceptions the modelled code can throw. -/
inductive JsError where
  /-- Reading a property of `undefined` or `null`. -/
  | typeError
  deriving DecidableEq, Repr

/-- The part of the language runtime taken as given: `ToNumber` on strings
(`none` is `NaN`). -/
structure JsRuntime where
  stringToNumber : String → Option ℚ

namespace JsVal

/-- Property read `v.key` for a data property `key`: throws on `undefined` and
`null`, finds the first binding of `key` in an object, and is `undefined` on the
other primitives (which have no own data property of the names read here). -/
def prop (v : JsVal) (key : String) : Except JsError JsVal :=
  match v with
  | undefined => .error .typeError
  | null => .error .typeError
  | obj fields => .ok ((fields.lookup key).getD undefined)
  | _ => .ok undefined

/-- The runtime conversion `ToNumber`; `none` stands for `NaN`. -/
def toNumber (rt : JsRuntime) : JsVal → Option ℚ
  | undefined => none
  | null => some 0
  | bool b => some (if b then 1 else 0)
  | num q => some q
  | str s => rt.stringToNumber s
  | obj _ => none

/-- Truthiness (`ToBoolean`), as used by `!v`. -/
def truthy : JsVal → Bool
  | undefined => false
  | null => false
  | bool b => b
  | num q => decide (q ≠ 0)
  | str s => decide (s ≠ "")
  | obj _ => true

/-- Whether the value is `undefined` or `null`. -/
def nullish : JsVal → Bool
  | undefined => true
  | null => true
  | _ => false

/-- The comparison `v >= c` against a number literal `c`: false when `v`
converts to `NaN`. -/
def ge (rt : JsRuntime) (v : JsVal) (c : ℚ) : Bool :=
  match v.toNumber rt with
  | none => false
  | some x => decide (c ≤ x)

/-- The comparison `v <= c` against a number literal `c`: false when `v`
converts to `NaN`. -/
def le (rt : JsRuntime) (v : JsVal) (c : ℚ) : Bool :=
  match v.toNumber rt with
  | none => false
  | some x => decide (x ≤ c)

end JsVal

/-- Short-circuit conjunction `a && b` of two boolean-valued expressions, each
of which may throw: `b` is evaluated only when `a` is true. -/
def andThen (a b : Except JsError Bool) : Except JsError Bool :=
  match a with
  | .error e => .error e
  | .ok false => .ok false
  | .ok true => b

/-! ## Helper functions of `server.js` -/

/-- The bounding box of a service region. -/
structure Bounds where
  minLat : ℚ
  maxLat : ℚ
  minLng : ℚ
  maxLng : ℚ

/-- The constant `BANGALORE_BOUNDS` declared inside `isWithinBangalore`. -/
def BANGALORE_BOUNDS : Bounds :=
  { minLat := 12.876, maxLat := 13.035, minLng := 77.515, maxLng := 77.685 }

/-- The comparison `coords.key >= c`, reading the property first. -/
def propGe (rt : JsRuntime) (coords : JsVal) (key : String) (c : ℚ) : Except JsError Bool :=
  match coords.prop key with
  | .error e => .error e
  | .ok v => .ok (v.ge rt c)

/-- The comparison `coords.key <= c`, reading the property first. -/
def propLe (rt : JsRuntime) (coords : JsVal) (key : String) (c : ℚ) : Except JsError Bool :=
  match coords.prop key with
  | .error e => .error e
  | .ok v => .ok (v.le rt c)

/-- The function `isWithinBangalore` of `server.js`: the four comparisons joined
by `&&`, left to right. -/
def isWithinBangalore (rt : JsRuntime) (coords : JsVal) : Except JsError Bool :=
  andThen (propGe rt coords "latitude" BANGALORE_BOUNDS.minLat)
    (andThen (propLe rt coords "latitude" BANGALORE_BOUNDS.maxLat)
      (andThen (propGe rt coords "longitude" BANGALORE_BOUNDS.minLng)
        (propLe rt coords "longitude" BANGALORE_BOUNDS.maxLng)))

/-- The function `calculateDistance` of `server.js`: the constant 10, whatever
the two locations. -/
def calculateDistance (_pickupLocation _dropoffLocation : JsVal) : ℚ := 10

/-- The body of `calculateFare` of `server.js`, with the distance function it
calls taken as the argument `dist`. `Math.ceil` is the integer ceiling. -/
def calculateFareWith (rt : JsRuntime) (dist : JsVal → JsVal → ℚ)
    (pickupLocation dropoffLocation userCoords : JsVal) : Except JsError ℚ :=
  let distance := dist pickupLocation dropoffLocation
  match isWithinBangalore rt userCoords with
  | .error e => .error e
  | .ok isInBangalore =>
    if isInBangalore then
      .ok (18 + (⌈distance / 2⌉ : ℚ) * 0.5)
    else if distance ≤ 6 then
      .ok (25 + distance)
    else
      .ok (25 + 6 + (⌈(distance - 6) / 2⌉ : ℚ) * 1)

/-- The function `calculateFare` of `server.js`: it calls `calculateDistance`. -/
def calculateFare (rt : JsRuntime) (pickupLocation dropoffLocation userCoords : JsVal) :
    Except JsError ℚ :=
  calculateFareWith rt calculateDistance pickupLocation dropoffLocation userCoords

/-- The coordinate object `{ latitude: lat, longitude: lng }`. -/
def coordOf (lat lng : ℚ) : JsVal :=
  .obj [("latitude", .num lat), ("longitude", .num lng)]

/-- A runtime whose string conversion yields `NaN` on every string; used only
to evaluate the functions at inputs that hold no string. -/
def rt0 : JsRuntime := { stringToNumber := fun _ => none }

/-! ## The bookings collection and `POST /book` -/

/-- A stored booking document, following `BookingSchema`. -/
structure Booking where
  userId : String
  pickupLocation : String
  dropoffLocation : String
  fare : ℚ
  latitude : ℚ
  longitude : ℚ
  status : String
  timestamp : Nat
  deriving DecidableEq

/-- The schema casting of the document-store library, taken as given: each
function is `none` when the value fails casting or the `required` validator of
its path.  A number is kept as it is by a `Number` path, and a non-empty string
by a `String` path; an object id that is accepted is the id it was cast from;
an absent value fails the `required` validator of a `Number` path. -/
structure Mongoose where
  castObjectId : String → Option String
  castString : JsVal → Option String
  castNumber : JsVal → Option ℚ
  castNumber_num : ∀ q : ℚ, castNumber (.num q) = some q
  castString_str : ∀ s : String, s ≠ "" → castString (.str s) = some s
  castObjectId_id : ∀ s u : String, castObjectId s = some u → u = s
  castNumber_undefined : castNumber .undefined = none

/-- What the `authenticateToken` middleware finds in the request headers. -/
inductive Auth where
  /-- No `Bearer` authorization header. -/
  | noToken
  /-- A token that fails verification. -/
  | invalid
  /-- A verified token; `id` is the `id` of its decoded payload. -/
  | verified (id : String)

/-- A request: the authorization outcome and the fields of the JSON body. -/
structure Request where
  auth : Auth
  body : List (String × JsVal)

/-- A JSON response: status code, message, and the booking sent back, if any. -/
structure Response where
  status : Nat
  message : String
  booking : Option Booking

/-- The field `key` of a request body, `undefined` when absent. -/
def field (body : List (String × JsVal)) (key : String) : JsVal :=
  (body.lookup key).getD .undefined

/-- The document `new Booking({ userId, pickupLocation, dropoffLocation, fare,
userCoords })` after casting and validation against `BookingSchema`, with the
schema defaults for `status` and `timestamp`; `none` when `save()` rejects. -/
def newBooking (m : Mongoose) (now : Nat) (userId : String)
    (pickupLocation dropoffLocation : JsVal) (fare : ℚ) (userCoords : JsVal) : Option Booking :=
  match m.castObjectId userId, m.castString pickupLocation, m.castString dropoffLocation,
      m.castNumber (.num fare), userCoords.prop "latitude", userCoords.prop "longitude" with
  | some uid, some p, some d, some f, .ok la, .ok lo =>
    match m.castNumber la, m.castNumber lo with
    | some lat, some lng =>
      some { userId := uid, pickupLocation := p, dropoffLocation := d, fare := f,
             latitude := lat, longitude := lng, status := "Pending", timestamp := now }
    | _, _ => none
  | _, _, _, _, _, _ => none

/-- The handler of `POST /book` behind `authenticateToken`, with the fare
function it calls taken as the argument `fareOf`: the response and the bookings
collection afterwards. -/
def bookWith (fareOf : JsVal → JsVal → JsVal → Except JsError ℚ) (m : Mongoose) (now : Nat)
    (db : List Booking) (req : Request) : Response × List Booking :=
  match req.auth with
  | .noToken => (⟨401, "Access denied. No token provided.", none⟩, db)
  | .invalid => (⟨403, "Invalid or expired token", none⟩, db)
  | .verified id =>
    let pickupLocation := field req.body "pickupLocation"
    let dropoffLocation := field req.body "dropoffLocation"
    let userCoords := field req.body "userCoords"
    if !pickupLocation.truthy || !dropoffLocation.truthy || !userCoords.truthy then
      (⟨400, "All fields are required.", none⟩, db)
    else
      match fareOf pickupLocation dropoffLocation userCoords with
      | .error _ => (⟨500, "Error creating booking.", none⟩, db)
      | .ok fare =>
        match newBooking m now id pickupLocation dropoffLocation fare userCoords with
        | none => (⟨500, "Error creating booking.", none⟩, db)
        | some b => (⟨201, "Booking created successfully", some b⟩, db ++ [b])

/-- The handler of `POST /book` as written: the fare function is
`calculateFare`. -/
def book (rt : JsRuntime) (m : Mongoose) (now : Nat) (db : List Booking) (req : Request) :
    Response × List Booking :=
  bookWith (calculateFare rt) m now db req

/-! ## `POST /validate-location` -/

namespace JsVal

/-- The operator `typeof`. -/
def typeof : JsVal → String
  | undefined => "undefined"
  | null => "object"
  | bool _ => "boolean"
  | num _ => "number"
  | str _ => "string"
  | obj _ => "object"

end JsVal

/-- The JSON response of `POST /validate-location`. -/
structure ValidationResponse where
  status : Nat
  isValid : Bool
  message : String
  deriving DecidableEq

/-- Whether `typeof coords.key !== 'number'`, reading the property first. -/
def propNotNumber (coords : JsVal) (key : String) : Except JsError Bool :=
  match coords.prop key with
  | .error e => .error e
  | .ok v => .ok (decide (v.typeof ≠ "number"))

/-- Short-circuit disjunction `a || b` of two boolean-valued expressions, each
of which may throw: `b` is evaluated only when `a` is false. -/
def orElse (a b : Except JsError Bool) : Except JsError Bool :=
  match a with
  | .error e => .error e
  | .ok true => .ok true
  | .ok false => b

/-- The handler of `POST /validate-location` (no authentication). An exception
escaping the handler is answered by the framework with status 500. -/
def validateLocation (rt : JsRuntime) (body : List (String × JsVal)) : ValidationResponse :=
  let userCoords := field body "userCoords"
  match orElse (.ok (!userCoords.truthy))
      (orElse (propNotNumber userCoords "latitude") (propNotNumber userCoords "longitude")) with
  | .error _ => ⟨500, false, "Internal Server Error"⟩
  | .ok true => ⟨400, false, "Invalid coordinates provided."⟩
  | .ok false =>
    match isWithinBangalore rt userCoords with
    | .error _ => ⟨500, false, "Internal Server Error"⟩
    | .ok isValid =>
      ⟨200, isValid,
        if isValid then "Location is within Bangalore."
        else "Pickup location is not within Bangalore."⟩

/-! ## `GET /bookings` -/

/-- The JSON response of `GET /bookings`. -/
structure BookingsResponse where
  status : Nat
  message : String
  bookings : List Booking

/-- The order of `.sort({ timestamp: -1 })`: `a` may come before `b` when its
timestamp is not smaller. -/
def newerFirst (a b : Booking) : Prop := b.timestamp ≤ a.timestamp

instance newerFirstDecidable : DecidableRel newerFirst :=
  fun a b => inferInstanceAs (Decidable (b.timestamp ≤ a.timestamp))

/-- The query `Booking.find({ userId }).sort({ timestamp: -1 })`: the stored
bookings of that user, by descending timestamp. The store leaves the order of
equal timestamps open; here they keep their insertion order. -/
def findByUser (db : List Booking) (userId : String) : List Booking :=
  (db.filter (fun b => b.userId = userId)).insertionSort newerFirst

/-- The handler of `GET /bookings` behind `authenticateToken`. -/
def getBookings (m : Mongoose) (db : List Booking) (auth : Auth) : BookingsResponse :=
  match auth with
  | .noToken => ⟨401, "Access denied. No token provided.", []⟩
  | .invalid => ⟨403, "Invalid or expired token", []⟩
  | .verified id =>
    match m.castObjectId id with
    | none => ⟨500, "Error fetching bookings.", []⟩
    | some userId => ⟨200, "User bookings retrieved successfully.", findByUser db userId⟩

/-! ## The routes as a transition system on the bookings collection -/

/-- A call of one of the routes of `server.js`. The user and driver routes work
on the `User` and `Driver` collections only, which are not part of the state
modelled here, so their requests carry no data. -/
inductive Call where
  | home
  | register
  | login
  | driverRegister
  | drivers
  | driverApprove
  | validateLocation (body : List (String × JsVal))
  | book (now : Nat) (req : Request)
  | bookings (auth : Auth)

/-- The bookings collection after a call: `POST /book` is the only route that
writes to it. -/
def step (rt : JsRuntime) (m : Mongoose) (db : List Booking) : Call → List Booking
  | .book now req => (book rt m now db req).2
  | _ => db

/-- The bookings collection after a sequence of calls, from the empty
collection. -/
def run (rt : JsRuntime) (m : Mongoose) (calls : List Call) : List Booking :=
  calls.foldl (step rt m) []

/-! ## The map booking screen: haversine distance, read over the real numbers -/

namespace MapBookingScreen

/-- A coordinate picked on the map, with real latitude and longitude in
degrees. -/
structure Coords where
  latitude : ℝ
  longitude : ℝ

/-- The function `Math.atan2(y, x)` on real arguments. -/
noncomputable def atan2 (y x : ℝ) : ℝ :=
  if 0 < x then Real.arctan (y / x)
  else if x < 0 then
    if 0 ≤ y then Real.arctan (y / x) + Real.pi else Real.arctan (y / x) - Real.pi
  else if 0 < y then Real.pi / 2
  else if y < 0 then -(Real.pi / 2)
  else 0

/-- The local function `toRadians` of the screen's `calculateFare`. -/
noncomputable def toRadians (deg : ℝ) : ℝ := (deg * Real.pi) / 180

/-- The constant `R`, the radius of the Earth in km. -/
noncomputable def R : ℝ := 6371

/-- The value `distance` computed by the screen's `calculateFare` from
`pickupCoords` and `dropoffCoords`; `Math.sqrt` is the real square root. -/
noncomputable def distance (pickupCoords dropoffCoords : Coords) : ℝ :=
  let dLat := toRadians (dropoffCoords.latitude - pickupCoords.latitude)
  let dLng := toRadians (dropoffCoords.longitude - pickupCoords.longitude)
  let a :=
    Real.sin (dLat / 2) * Real.sin (dLat / 2) +
      Real.cos (toRadians pickupCoords.latitude) *
        Real.cos (toRadians dropoffCoords.latitude) *
        Real.sin (dLng / 2) * Real.sin (dLng / 2)
  let c := 2 * atan2 (Real.sqrt a) (Real.sqrt (1 - a))
  R * c

/-- A coordinate as the map delivers it and as it is sent to the server: two
numbers. -/
structure Point where
  latitude : ℚ
  longitude : ℚ

/-- The coordinate read in the reals, for the distance computation. -/
noncomputable def Point.toCoords (p : Point) : Coords :=
  ⟨(p.latitude : ℝ), (p.longitude : ℝ)⟩

/-- The coordinate as the object put in a request body. -/
def Point.toJs (p : Point) : JsVal := coordOf p.latitude p.longitude

/-- The screen's `calculateFare`, as the new value of the state `fare`: without
both coordinates the state is left as it is; otherwise it is set to
`calculatedFare`, 20.5 below 5 km and `distance * 5` from 5 km on. -/
noncomputable def calculateFare (pickupCoords dropoffCoords : Option Coords) (fare : ℝ) : ℝ :=
  match pickupCoords, dropoffCoords with
  | some p, some d =>
    let dist := distance p d
    if dist < 5 then 20.5 else dist * 5
  | _, _ => fare

/-- The body that `handleConfirmBooking` posts to `/book`, `none` when a
coordinate is not selected: the place names with their fallbacks, the state
`fare` as it goes on the wire, and the pickup coordinate as `userCoords`. -/
def handleConfirmBooking (pickupName dropoffName : String) (fare : JsVal)
    (pickupCoords dropoffCoords : Option Point) : Option (List (String × JsVal)) :=
  match pickupCoords, dropoffCoords with
  | some p, some _ =>
    some [("pickupLocation", .str (if pickupName = "" then "Custom Pickup" else pickupName)),
          ("dropoffLocation", .str (if dropoffName = "" then "Custom Dropoff" else dropoffName)),
          ("fare", fare), ("userCoords", p.toJs)]
  | _, _ => none

end MapBookingScreen

/-! ## The bookings list screen -/

namespace BookingsScreen

/-- The screen's own `calculateFare`, over the two location labels. -/
def calculateFare (pickupLocation dropoffLocation : String) : ℚ :=
  if pickupLocation = "Bangalore" ∧ dropoffLocation = "Bangalore" then 18 else 25

/-- The fare that `renderItem` shows for a booking of the list. -/
def displayedFare (item : Booking) : ℚ :=
  calculateFare item.pickupLocation item.dropoffLocation

end BookingsScreen

/-- The body sent by the booking form: labels, rider coordinate and a fare
typed by the user. -/
def formBody (fare : JsVal) : List (String × JsVal) :=
  [("pickupLocation", .str "MG Road"), ("dropoffLocation", .str "Airport"),
   ("fare", fare), ("userCoords", coordOf 12.9716 77.5946)]

/-- Two riders' bookings at three times, used to evaluate the listing. -/
def sampleDb : List Booking :=
  [{ userId := "u1", pickupLocation := "A", dropoffLocation := "B", fare := 20.5,
     latitude := 12.9, longitude := 77.6, status := "Pending", timestamp := 1 },
   { userId := "u2", pickupLocation := "C", dropoffLocation := "D", fare := 33,
     latitude := 13.5, longitude := 77.6, status := "Pending", timestamp := 2 },
   { userId := "u1", pickupLocation := "E", dropoffLocation := "F", fare := 20.5,
     latitude := 12.9, longitude := 77.6, status := "Pending", timestamp := 3 }]

/-- A schema casting that accepts object ids as they are, non-empty strings and
numbers, and nothing else; used only to evaluate the handlers. -/
def mongoose0 : Mongoose where
  castObjectId := fun s => some s
  castString := fun v => match v with
    | .str s => if s = "" then none else some s
    | _ => none
  castNumber := fun v => match v with
    | .num q => some q
    | _ => none
  castNumber_num := fun _ => rfl
  castString_str := fun s h => by simp [h]
  castObjectId_id := fun _ _ h => (Option.some.inj h).symm
  castNumber_undefined := rfl

end MonacoCabs

namespace MonacoCabs

/-! ## Auxiliary facts -/

theorem prop_ok_of_not_nullish (c : JsVal) (key : String) (hc : c.nullish = false) :
    ∃ v, c.prop key = .ok v := by
  cases c <;> simp [JsVal.nullish] at hc <;> simp [JsVal.prop]

theorem isWithinBangalore_of_prop (rt : JsRuntime) (c la lo : JsVal)
    (hla : c.prop "latitude" = .ok la) (hlo : c.prop "longitude" = .ok lo) :
    isWithinBangalore rt c =
      .ok (la.ge rt BANGALORE_BOUNDS.minLat && la.le rt BANGALORE_BOUNDS.maxLat &&
        lo.ge rt BANGALORE_BOUNDS.minLng && lo.le rt BANGALORE_BOUNDS.maxLng) := by
  simp only [isWithinBangalore, propGe, propLe, hla, hlo]
  cases la.ge rt BANGALORE_BOUNDS.minLat <;> cases la.le rt BANGALORE_BOUNDS.maxLat <;>
    cases lo.ge rt BANGALORE_BOUNDS.minLng <;> cases lo.le rt BANGALORE_BOUNDS.maxLng <;>
    rfl

theorem isWithinBangalore_total (rt : JsRuntime) (c : JsVal) (hc : c.nullish = false) :
    ∃ b, isWithinBangalore rt c = .ok b := by
  obtain ⟨la, hla⟩ := prop_ok_of_not_nullish c "latitude" hc
  obtain ⟨lo, hlo⟩ := prop_ok_of_not_nullish c "longitude" hc
  exact ⟨_, isWithinBangalore_of_prop rt c la lo hla hlo⟩

theorem isWithinBangalore_numeric (rt : JsRuntime) (c : JsVal) (lat lng : ℚ)
    (hla : c.prop "latitude" = .ok (.num lat)) (hlo : c.prop "longitude" = .ok (.num lng)) :
    isWithinBangalore rt c =
      .ok (decide (12.876 ≤ lat ∧ lat ≤ 13.035 ∧ 77.515 ≤ lng ∧ lng ≤ 77.685)) := by
  rw [isWithinBangalore_of_prop rt c _ _ hla hlo]
  simp only [JsVal.ge, JsVal.le, JsVal.toNumber, BANGALORE_BOUNDS, Bool.decide_and, Bool.and_assoc]

theorem not_nullish_of_truthy (c : JsVal) (hc : c.truthy = true) : c.nullish = false := by
  cases c <;> simp [JsVal.truthy] at hc <;> rfl

theorem coordOf_latitude (lat lng : ℚ) : (coordOf lat lng).prop "latitude" = .ok (.num lat) := by
  simp [coordOf, JsVal.prop, List.lookup]

theorem coordOf_longitude (lat lng : ℚ) : (coordOf lat lng).prop "longitude" = .ok (.num lng) := by
  simp [coordOf, JsVal.prop, List.lookup]

/-! ## The geofence check -/

/-- C1: for every coordinate whose latitude and longitude are numbers,
`isWithinBangalore` returns a boolean, and it returns true if and only if
12.876 <= latitude <= 13.035 and 77.515 <= longitude <= 77.685. -/
theorem isWithinBangalore_iff_in_bounds (rt : JsRuntime) (coords : JsVal) (lat lng : ℚ)
    (hlat : coords.prop "latitude" = .ok (.num lat))
    (hlng : coords.prop "longitude" = .ok (.num lng)) :
    (∃ b, isWithinBangalore rt coords = .ok b) ∧
    (isWithinBangalore rt coords = .ok true ↔
      (12.876 ≤ lat ∧ lat ≤ 13.035) ∧ (77.515 ≤ lng ∧ lng ≤ 77.685)) := by
  rw [isWithinBangalore_numeric rt coords lat lng hlat hlng]
  refine ⟨⟨_, rfl⟩, ?_⟩
  simp only [Except.ok.injEq, decide_eq_true_eq]
  tauto

/-- Witness for C1: the city-centre coordinate (12.9716, 77.5946) has numeric
fields and is found inside the region. -/
theorem isWithinBangalore_iff_in_bounds_witness :
    isWithinBangalore rt0 (coordOf 12.9716 77.5946) = .ok true :=
  (isWithinBangalore_iff_in_bounds rt0 (coordOf 12.9716 77.5946) 12.9716 77.5946
    (coordOf_latitude _ _) (coordOf_longitude _ _)).2.mpr (by norm_num)

/-! ## The fare computation -/

theorem ceil_five : (⌈(10 : ℚ) / 2⌉ : ℤ) = 5 := by
  rw [Int.ceil_eq_iff]; norm_num

theorem ceil_zero_half : (⌈(0 : ℚ) / 2⌉ : ℤ) = 0 := by
  rw [Int.ceil_eq_iff]; norm_num

theorem ceil_two : (⌈((10 : ℚ) - 6) / 2⌉ : ℤ) = 2 := by
  rw [Int.ceil_eq_iff]; norm_num

theorem calculateFareWith_inRegion (rt : JsRuntime) (dist : JsVal → JsVal → ℚ)
    (p q c : JsVal) (h : isWithinBangalore rt c = .ok true) :
    calculateFareWith rt dist p q c = .ok (18 + (⌈dist p q / 2⌉ : ℚ) * 0.5) := by
  simp [calculateFareWith, h]

theorem calculateFareWith_outRegion (rt : JsRuntime) (dist : JsVal → JsVal → ℚ)
    (p q c : JsVal) (h : isWithinBangalore rt c = .ok false) :
    calculateFareWith rt dist p q c =
      .ok (if dist p q ≤ 6 then 25 + dist p q else 25 + 6 + (⌈(dist p q - 6) / 2⌉ : ℚ) * 1) := by
  simp only [calculateFareWith, h]
  by_cases hd : dist p q ≤ 6 <;> simp [hd]

theorem inside_example (rt : JsRuntime) :
    isWithinBangalore rt (coordOf 12.9716 77.5946) = .ok true := by
  rw [isWithinBangalore_numeric rt _ _ _ (coordOf_latitude _ _) (coordOf_longitude _ _)]
  norm_num

theorem outside_example (rt : JsRuntime) :
    isWithinBangalore rt (coordOf 13.5 77.5946) = .ok false := by
  rw [isWithinBangalore_numeric rt _ _ _ (coordOf_latitude _ _) (coordOf_longitude _ _)]
  norm_num

/-- C2: for every rider coordinate with numeric fields inside the region and
every distance d the distance function produces, the fare computation returns
18 + ceil(d / 2) * 0.5; a distance of 10 gives 20.5 and a distance of 0 gives
18. -/
theorem calculateFare_in_region (rt : JsRuntime) (dist : JsVal → JsVal → ℚ)
    (pickupLocation dropoffLocation userCoords : JsVal) (lat lng : ℚ)
    (hlat : userCoords.prop "latitude" = .ok (.num lat))
    (hlng : userCoords.prop "longitude" = .ok (.num lng))
    (hin : 12.876 ≤ lat ∧ lat ≤ 13.035 ∧ 77.515 ≤ lng ∧ lng ≤ 77.685) :
    calculateFareWith rt dist pickupLocation dropoffLocation userCoords =
        .ok (18 + (⌈dist pickupLocation dropoffLocation / 2⌉ : ℚ) * 0.5) ∧
    calculateFareWith rt (fun _ _ => 10) pickupLocation dropoffLocation userCoords = .ok 20.5 ∧
    calculateFareWith rt (fun _ _ => 0) pickupLocation dropoffLocation userCoords = .ok 18 := by
  have hb : isWithinBangalore rt userCoords = .ok true := by
    rw [isWithinBangalore_numeric rt _ lat lng hlat hlng, decide_eq_true hin]
  refine ⟨calculateFareWith_inRegion rt dist _ _ _ hb, ?_, ?_⟩
  · rw [calculateFareWith_inRegion rt _ _ _ _ hb, ceil_five]; norm_num
  · rw [calculateFareWith_inRegion rt _ _ _ _ hb, ceil_zero_half]; norm_num

/-- Witness for C2: with the rider at (12.9716, 77.5946), inside the region,
and a distance of 3, the fare is 18 + ceil(3 / 2) * 0.5. -/
theorem calculateFare_in_region_witness :
    calculateFareWith rt0 (fun _ _ => 3) (.str "MG Road") (.str "Airport")
      (coordOf 12.9716 77.5946) = .ok (18 + (⌈(3 : ℚ) / 2⌉ : ℚ) * 0.5) :=
  (calculateFare_in_region rt0 (fun _ _ => 3) (.str "MG Road") (.str "Airport")
    (coordOf 12.9716 77.5946) 12.9716 77.5946 (coordOf_latitude _ _) (coordOf_longitude _ _)
    (by norm_num)).1

/-- C3: for every rider coordinate with numeric fields outside the region and
every distance d the distance function produces, the fare computation returns
25 + d when d <= 6 and 25 + 6 + ceil((d - 6) / 2) when d > 6; a distance of 4
gives 29 and a distance of 10 gives 33. -/
theorem calculateFare_out_of_region (rt : JsRuntime) (dist : JsVal → JsVal → ℚ)
    (pickupLocation dropoffLocation userCoords : JsVal) (lat lng : ℚ)
    (hlat : userCoords.prop "latitude" = .ok (.num lat))
    (hlng : userCoords.prop "longitude" = .ok (.num lng))
    (hout : ¬ (12.876 ≤ lat ∧ lat ≤ 13.035 ∧ 77.515 ≤ lng ∧ lng ≤ 77.685)) :
    (dist pickupLocation dropoffLocation ≤ 6 →
      calculateFareWith rt dist pickupLocation dropoffLocation userCoords =
        .ok (25 + dist pickupLocation dropoffLocation)) ∧
    (6 < dist pickupLocation dropoffLocation →
      calculateFareWith rt dist pickupLocation dropoffLocation userCoords =
        .ok (25 + 6 + (⌈(dist pickupLocation dropoffLocation - 6) / 2⌉ : ℚ))) ∧
    calculateFareWith rt (fun _ _ => 4) pickupLocation dropoffLocation userCoords = .ok 29 ∧
    calculateFareWith rt (fun _ _ => 10) pickupLocation dropoffLocation userCoords = .ok 33 := by
  have hb : isWithinBangalore rt userCoords = .ok false := by
    rw [isWithinBangalore_numeric rt _ lat lng hlat hlng, decide_eq_false hout]
  refine ⟨fun hle => ?_, fun hgt => ?_, ?_, ?_⟩
  · rw [calculateFareWith_outRegion rt dist _ _ _ hb, if_pos hle]
  · rw [calculateFareWith_outRegion rt dist _ _ _ hb, if_neg (not_le.mpr hgt), mul_one]
  · rw [calculateFareWith_outRegion rt _ _ _ _ hb]; norm_num
  · rw [calculateFareWith_outRegion rt _ _ _ _ hb, ceil_two]; norm_num

/-- Witness for C3: with the rider at (13.5, 77.5946), north of the region, a
distance of 5 is billed 25 + 5 and a distance of 9 is billed
25 + 6 + ceil(3 / 2). -/
theorem calculateFare_out_of_region_witness :
    calculateFareWith rt0 (fun _ _ => 5) (.str "Hosur") (.str "Tumkur")
        (coordOf 13.5 77.5946) = .ok (25 + 5) ∧
    calculateFareWith rt0 (fun _ _ => 9) (.str "Hosur") (.str "Tumkur")
        (coordOf 13.5 77.5946) = .ok (25 + 6 + (⌈((9 : ℚ) - 6) / 2⌉ : ℚ)) :=
  ⟨(calculateFare_out_of_region rt0 (fun _ _ => 5) (.str "Hosur") (.str "Tumkur")
      (coordOf 13.5 77.5946) 13.5 77.5946 (coordOf_latitude _ _) (coordOf_longitude _ _)
      (by norm_num)).1 (by norm_num),
   (calculateFare_out_of_region rt0 (fun _ _ => 9) (.str "Hosur") (.str "Tumkur")
      (coordOf 13.5 77.5946) 13.5 77.5946 (coordOf_latitude _ _) (coordOf_longitude _ _)
      (by norm_num)).2.1 (by norm_num)⟩

theorem calculateFare_of_inRegion (rt : JsRuntime) (p q c : JsVal)
    (h : isWithinBangalore rt c = .ok true) : calculateFare rt p q c = .ok 20.5 := by
  rw [calculateFare, calculateFareWith_inRegion rt _ _ _ _ h]
  simp only [calculateDistance, ceil_five]; norm_num

theorem calculateFare_of_outRegion (rt : JsRuntime) (p q c : JsVal)
    (h : isWithinBangalore rt c = .ok false) : calculateFare rt p q c = .ok 33 := by
  rw [calculateFare, calculateFareWith_outRegion rt _ _ _ _ h]
  simp only [calculateDistance, ceil_two]; norm_num

/-- C4: with `calculateDistance` as written (the constant 10), for every pickup
label, dropoff label and rider coordinate with numeric fields, `calculateFare`
returns 20.5 when the rider coordinate is inside the region and 33 otherwise;
the rider (12.9716, 77.5946) gives 20.5 and the rider (13.5, 77.5946) gives
33. -/
theorem calculateFare_constant_distance (rt : JsRuntime)
    (pickupLocation dropoffLocation userCoords : JsVal) (lat lng : ℚ)
    (hlat : userCoords.prop "latitude" = .ok (.num lat))
    (hlng : userCoords.prop "longitude" = .ok (.num lng)) :
    calculateFare rt pickupLocation dropoffLocation userCoords =
      .ok (if 12.876 ≤ lat ∧ lat ≤ 13.035 ∧ 77.515 ≤ lng ∧ lng ≤ 77.685 then 20.5 else 33) ∧
    calculateFare rt pickupLocation dropoffLocation (coordOf 12.9716 77.5946) = .ok 20.5 ∧
    calculateFare rt pickupLocation dropoffLocation (coordOf 13.5 77.5946) = .ok 33 := by
  refine ⟨?_, calculateFare_of_inRegion rt _ _ _ (inside_example rt),
    calculateFare_of_outRegion rt _ _ _ (outside_example rt)⟩
  have hb := isWithinBangalore_numeric rt userCoords lat lng hlat hlng
  by_cases h : 12.876 ≤ lat ∧ lat ≤ 13.035 ∧ 77.515 ≤ lng ∧ lng ≤ 77.685
  · rw [if_pos h]
    exact calculateFare_of_inRegion rt _ _ _ (by rw [hb, decide_eq_true h])
  · rw [if_neg h]
    exact calculateFare_of_outRegion rt _ _ _ (by rw [hb, decide_eq_false h])

/-- Witness for C4: the rider (12.9, 77.6) has numeric fields, and its fare is
one of the two constants according to the bounds. -/
theorem calculateFare_constant_distance_witness :
    calculateFare rt0 (.str "MG Road") (.str "Airport") (coordOf 12.9 77.6) =
      .ok (if (12.876 : ℚ) ≤ 12.9 ∧ (12.9 : ℚ) ≤ 13.035 ∧ (77.515 : ℚ) ≤ 77.6 ∧
        (77.6 : ℚ) ≤ 77.685 then 20.5 else 33) :=
  (calculateFare_constant_distance rt0 (.str "MG Road") (.str "Airport")
    (coordOf 12.9 77.6) 12.9 77.6 (coordOf_latitude _ _) (coordOf_longitude _ _)).1

/-! ## `POST /book` and the client-supplied fare -/

theorem field_congr (body1 body2 : List (String × JsVal)) (key : String)
    (h : body1.lookup key = body2.lookup key) : field body1 key = field body2 key := by
  simp only [field, h]

theorem book_created (rt : JsRuntime) (m : Mongoose) (now : Nat) (db : List Booking)
    (req : Request) (b : Booking) (h : (book rt m now db req).2 = db ++ [b]) :
    calculateFare rt (field req.body "pickupLocation") (field req.body "dropoffLocation")
      (field req.body "userCoords") = .ok b.fare := by
  have hne : db ≠ db ++ [b] := by
    intro heq
    have := congrArg List.length heq
    simp at this
  unfold book bookWith at h
  split at h
  · exact (hne h).elim
  · exact (hne h).elim
  · simp only at h
    split at h
    · exact (hne h).elim
    · split at h
      · exact (hne h).elim
      · rename_i fare hfare
        split at h
        · exact (hne h).elim
        · rename_i b1 hb1
          have hb : b1 = b := by simpa using h
          subst hb
          rw [hfare]
          unfold newBooking at hb1
          rw [m.castNumber_num] at hb1
          split at hb1
          · rename_i uid p d f la lo _ _ _ hf _ _
            split at hb1
            · simp only [Option.some.injEq] at hb1 hf
              rw [← hb1, hf]
            · exact absurd hb1 (by simp)
          · exact absurd hb1 (by simp)

/-- C5: the fare stored by `POST /book` does not depend on a fare sent by the
client. Two requests whose bodies agree on every field other than `fare`
(whatever its value, present or absent) produce the same response and the same
bookings collection, and the fare of a booking the handler stores is
`calculateFare(pickupLocation, dropoffLocation, userCoords)`. -/
theorem book_ignores_client_fare (rt : JsRuntime) (m : Mongoose) (now : Nat)
    (db : List Booking) (auth : Auth) (body1 body2 : List (String × JsVal))
    (hsame : ∀ key, key ≠ "fare" → body1.lookup key = body2.lookup key) :
    book rt m now db ⟨auth, body1⟩ = book rt m now db ⟨auth, body2⟩ ∧
    ∀ b, (book rt m now db ⟨auth, body1⟩).2 = db ++ [b] →
      calculateFare rt (field body1 "pickupLocation") (field body1 "dropoffLocation")
        (field body1 "userCoords") = .ok b.fare := by
  refine ⟨?_, fun b hb => book_created rt m now db ⟨auth, body1⟩ b hb⟩
  have hp := field_congr body1 body2 "pickupLocation" (hsame _ (by decide))
  have hd := field_congr body1 body2 "dropoffLocation" (hsame _ (by decide))
  have hu := field_congr body1 body2 "userCoords" (hsame _ (by decide))
  simp only [book, bookWith, hp, hd, hu]

theorem book_form_creates (fare : JsVal) :
    (book rt0 mongoose0 7 [] ⟨.verified "u1", formBody fare⟩).2 =
      [{ userId := "u1", pickupLocation := "MG Road", dropoffLocation := "Airport",
         fare := 20.5, latitude := 12.9716, longitude := 77.5946, status := "Pending",
         timestamp := 7 }] := by
  have hf := calculateFare_of_inRegion rt0 (.str "MG Road") (.str "Airport") _ (inside_example rt0)
  simp only [coordOf] at hf
  simp [book, bookWith, formBody, field, List.lookup, JsVal.truthy, hf, newBooking, mongoose0, coordOf,
    JsVal.prop]

/-- Witness for C5: the booking form sending fare 1 and the same form sending
fare 999 get the same response and leave the same collection, whose one booking
has the computed fare 20.5. -/
theorem book_ignores_client_fare_witness :
    book rt0 mongoose0 7 [] ⟨.verified "u1", formBody (.num 1)⟩ =
      book rt0 mongoose0 7 [] ⟨.verified "u1", formBody (.num 999)⟩ ∧
    (book rt0 mongoose0 7 [] ⟨.verified "u1", formBody (.num 1)⟩).2 =
      [{ userId := "u1", pickupLocation := "MG Road", dropoffLocation := "Airport",
         fare := 20.5, latitude := 12.9716, longitude := 77.5946, status := "Pending",
         timestamp := 7 }] :=
  ⟨(book_ignores_client_fare rt0 mongoose0 7 [] (.verified "u1") (formBody (.num 1))
    (formBody (.num 999)) (by
      intro key hkey
      have hk : (key == "fare") = false := by simpa using hkey
      simp [formBody, List.lookup, hk])).1, book_form_creates _⟩

/-! ## Monotonicity, boundaries and failure modes -/

theorem ceil_half_mono (d1 d2 : ℚ) (h : d1 ≤ d2) :
    ((⌈d1 / 2⌉ : ℤ) : ℚ) ≤ ((⌈d2 / 2⌉ : ℤ) : ℚ) := by
  have : d1 / 2 ≤ d2 / 2 := by linarith
  exact_mod_cast Int.ceil_mono this

theorem ceil_half_nonneg (d : ℚ) (h : 0 ≤ d) : (0 : ℚ) ≤ ((⌈d / 2⌉ : ℤ) : ℚ) := by
  have : (0 : ℚ) ≤ d / 2 := by linarith
  exact_mod_cast Int.ceil_nonneg this

/-- C6: for a fixed rider coordinate (hence a fixed tier) the fare is
non-decreasing in the distance: for d1 <= d2, and so for 0 <= d1 <= d2, both
fares are returned and the fare at d1 is at most the fare at d2, in the
in-region tier and in the out-of-region tier, the threshold d = 6 included. -/
theorem calculateFare_monotone (rt : JsRuntime) (pickupLocation dropoffLocation userCoords : JsVal)
    (d1 d2 : ℚ) (hc : userCoords.nullish = false) (h12 : d1 ≤ d2) :
    ∃ f1 f2,
      calculateFareWith rt (fun _ _ => d1) pickupLocation dropoffLocation userCoords = .ok f1 ∧
      calculateFareWith rt (fun _ _ => d2) pickupLocation dropoffLocation userCoords = .ok f2 ∧
      f1 ≤ f2 := by
  obtain ⟨b, hb⟩ := isWithinBangalore_total rt userCoords hc
  cases b
  · refine ⟨_, _, calculateFareWith_outRegion rt _ _ _ _ hb,
      calculateFareWith_outRegion rt _ _ _ _ hb, ?_⟩
    have hmono : ((⌈(d1 - 6) / 2⌉ : ℤ) : ℚ) ≤ ((⌈(d2 - 6) / 2⌉ : ℤ) : ℚ) :=
      ceil_half_mono (d1 - 6) (d2 - 6) (by linarith)
    by_cases h1 : d1 ≤ 6 <;> by_cases h2 : d2 ≤ 6
    · simp only [if_pos h1, if_pos h2]; linarith
    · simp only [if_pos h1, if_neg h2]
      have := ceil_half_nonneg (d2 - 6) (by linarith)
      linarith
    · exact absurd (le_trans h12 h2) h1
    · simp only [if_neg h1, if_neg h2]; linarith
  · refine ⟨_, _, calculateFareWith_inRegion rt _ _ _ _ hb,
      calculateFareWith_inRegion rt _ _ _ _ hb, ?_⟩
    have := ceil_half_mono d1 d2 h12
    have h5 : (0.5 : ℚ) = 1 / 2 := by norm_num
    simp only [h5]
    linarith

/-- Witness for C6: for a rider north of the region, the fare at distance 5
(below the threshold) is at most the fare at distance 7 (above it). -/
theorem calculateFare_monotone_witness :
    ∃ f1 f2,
      calculateFareWith rt0 (fun _ _ => 5) (.str "Hosur") (.str "Tumkur")
        (coordOf 13.5 77.5946) = .ok f1 ∧
      calculateFareWith rt0 (fun _ _ => 7) (.str "Hosur") (.str "Tumkur")
        (coordOf 13.5 77.5946) = .ok f2 ∧
      f1 ≤ f2 :=
  calculateFare_monotone rt0 (.str "Hosur") (.str "Tumkur") (coordOf 13.5 77.5946) 5 7 rfl
    (by norm_num)

/-- C7: the region bounds are inclusive. A coordinate with numeric fields whose
latitude is 12.876 or 13.035 with longitude in [77.515, 77.685], or whose
longitude is 77.515 or 77.685 with latitude in [12.876, 13.035], makes
`isWithinBangalore` return true; this covers the four corners. -/
theorem isWithinBangalore_boundary (rt : JsRuntime) (coords : JsVal) (lat lng : ℚ)
    (hlat : coords.prop "latitude" = .ok (.num lat))
    (hlng : coords.prop "longitude" = .ok (.num lng))
    (hedge : ((lat = 12.876 ∨ lat = 13.035) ∧ 77.515 ≤ lng ∧ lng ≤ 77.685) ∨
      ((lng = 77.515 ∨ lng = 77.685) ∧ 12.876 ≤ lat ∧ lat ≤ 13.035)) :
    isWithinBangalore rt coords = .ok true := by
  rw [isWithinBangalore_numeric rt coords lat lng hlat hlng]
  have : 12.876 ≤ lat ∧ lat ≤ 13.035 ∧ 77.515 ≤ lng ∧ lng ≤ 77.685 := by
    rcases hedge with ⟨h | h, h1, h2⟩ | ⟨h | h, h1, h2⟩ <;> subst h <;>
      refine ⟨?_, ?_, ?_, ?_⟩ <;> first | assumption | norm_num
  simp [this]

/-- Witness for C7: the north-east corner (13.035, 77.685) is inside. -/
theorem isWithinBangalore_boundary_witness :
    isWithinBangalore rt0 (coordOf 13.035 77.685) = .ok true :=
  isWithinBangalore_boundary rt0 (coordOf 13.035 77.685) 13.035 77.685
    (coordOf_latitude _ _) (coordOf_longitude _ _)
    (Or.inl ⟨Or.inr rfl, by norm_num, by norm_num⟩)

/-- Counterexample to C8: at the coordinate {latitude: 200, longitude: 77.6},
outside the global valid range, the geofence check does not fail: it returns the
boolean false. -/
theorem isWithinBangalore_out_of_range_no_error :
    isWithinBangalore rt0 (coordOf 200 77.6) = .ok false ∧
    ¬ ∃ e, isWithinBangalore rt0 (coordOf 200 77.6) = .error e := by
  have h : isWithinBangalore rt0 (coordOf 200 77.6) = .ok false := by
    rw [isWithinBangalore_numeric rt0 _ _ _ (coordOf_latitude _ _) (coordOf_longitude _ _)]
    norm_num
  refine ⟨h, ?_⟩
  rintro ⟨e, he⟩
  rw [h] at he
  exact absurd he (by simp)

/-- C8, amended: for every coordinate with numeric fields outside the global
valid range (latitude outside [-90, 90] or longitude outside [-180, 180]),
`isWithinBangalore` returns the boolean false. -/
theorem isWithinBangalore_out_of_range (rt : JsRuntime) (coords : JsVal) (lat lng : ℚ)
    (hlat : coords.prop "latitude" = .ok (.num lat))
    (hlng : coords.prop "longitude" = .ok (.num lng))
    (hrange : lat < -90 ∨ 90 < lat ∨ lng < -180 ∨ 180 < lng) :
    isWithinBangalore rt coords = .ok false := by
  rw [isWithinBangalore_numeric rt coords lat lng hlat hlng]
  have : ¬ (12.876 ≤ lat ∧ lat ≤ 13.035 ∧ 77.515 ≤ lng ∧ lng ≤ 77.685) := by
    rintro ⟨h1, h2, h3, h4⟩
    rcases hrange with h | h | h | h <;> norm_num at h1 h2 h3 h4 <;> linarith
  simp [this]

/-- Witness for C8, amended: longitude 190 is outside the global range and the
check returns false. -/
theorem isWithinBangalore_out_of_range_witness :
    isWithinBangalore rt0 (coordOf 12.9 190) = .ok false :=
  isWithinBangalore_out_of_range rt0 (coordOf 12.9 190) 12.9 190
    (coordOf_latitude _ _) (coordOf_longitude _ _) (Or.inr (Or.inr (Or.inr (by norm_num))))

theorem ceil_neg_two : (⌈(-4 : ℚ) / 2⌉ : ℤ) = -2 := by
  rw [Int.ceil_eq_iff]; norm_num

/-- Counterexample to C9: when the distance function yields -4 for a rider
inside the region, the fare computation does not fail: it returns the fare 17. -/
theorem calculateFare_negative_distance_no_error :
    calculateFareWith rt0 (fun _ _ => -4) (.str "MG Road") (.str "Airport")
      (coordOf 12.9716 77.5946) = .ok 17 ∧
    ¬ ∃ e, calculateFareWith rt0 (fun _ _ => -4) (.str "MG Road") (.str "Airport")
      (coordOf 12.9716 77.5946) = .error e := by
  have h : calculateFareWith rt0 (fun _ _ => -4) (.str "MG Road") (.str "Airport")
      (coordOf 12.9716 77.5946) = .ok 17 := by
    rw [calculateFareWith_inRegion rt0 _ _ _ _ (inside_example rt0), ceil_neg_two]
    norm_num
  refine ⟨h, ?_⟩
  rintro ⟨e, he⟩
  rw [h] at he
  exact absurd he (by simp)

/-- C9, amended: the fare computation has no distance check. Whenever the
distance function yields a negative distance d, it still returns a fare:
18 + ceil(d / 2) * 0.5 for a rider the geofence check finds inside the region
and 25 + d for a rider it finds outside. -/
theorem calculateFare_negative_distance (rt : JsRuntime) (dist : JsVal → JsVal → ℚ)
    (pickupLocation dropoffLocation userCoords : JsVal)
    (hc : userCoords.nullish = false) (hneg : dist pickupLocation dropoffLocation < 0) :
    ∃ b, isWithinBangalore rt userCoords = .ok b ∧
      calculateFareWith rt dist pickupLocation dropoffLocation userCoords =
        .ok (if b then 18 + (⌈dist pickupLocation dropoffLocation / 2⌉ : ℚ) * 0.5
          else 25 + dist pickupLocation dropoffLocation) := by
  obtain ⟨b, hb⟩ := isWithinBangalore_total rt userCoords hc
  refine ⟨b, hb, ?_⟩
  cases b
  · rw [calculateFareWith_outRegion rt dist _ _ _ hb, if_pos (by linarith)]
    simp
  · rw [calculateFareWith_inRegion rt dist _ _ _ hb]
    simp

/-- Witness for C9, amended: a distance of -2 for a rider north of the region
is billed 25 + (-2). -/
theorem calculateFare_negative_distance_witness :
    ∃ b, isWithinBangalore rt0 (coordOf 13.5 77.5946) = .ok b ∧
      calculateFareWith rt0 (fun _ _ => -2) (.str "Hosur") (.str "Tumkur")
        (coordOf 13.5 77.5946) =
        .ok (if b then 18 + (⌈(-2 : ℚ) / 2⌉ : ℚ) * 0.5 else 25 + (-2)) :=
  calculateFare_negative_distance rt0 (fun _ _ => -2) (.str "Hosur") (.str "Tumkur")
    (coordOf 13.5 77.5946) rfl (by norm_num)

/-- C10: for every rider coordinate and every distance d >= 0, the fare that
`calculateFare` returns is non-negative: it is at least 18 for a rider the
geofence check finds inside the region and at least 25 for a rider it finds
outside. -/
theorem calculateFare_nonneg (rt : JsRuntime) (dist : JsVal → JsVal → ℚ)
    (pickupLocation dropoffLocation userCoords : JsVal)
    (hc : userCoords.nullish = false) (hd : 0 ≤ dist pickupLocation dropoffLocation) :
    ∃ b f, isWithinBangalore rt userCoords = .ok b ∧
      calculateFareWith rt dist pickupLocation dropoffLocation userCoords = .ok f ∧
      0 ≤ f ∧ (if b then 18 ≤ f else 25 ≤ f) := by
  obtain ⟨b, hb⟩ := isWithinBangalore_total rt userCoords hc
  cases b
  · refine ⟨false, _, hb, calculateFareWith_outRegion rt dist _ _ _ hb, ?_⟩
    have hbound : (25 : ℚ) ≤ (if dist pickupLocation dropoffLocation ≤ 6 then
        25 + dist pickupLocation dropoffLocation
        else 25 + 6 + (⌈(dist pickupLocation dropoffLocation - 6) / 2⌉ : ℚ) * 1) := by
      by_cases h6 : dist pickupLocation dropoffLocation ≤ 6
      · simp only [if_pos h6]; linarith
      · simp only [if_neg h6]
        have := ceil_half_nonneg (dist pickupLocation dropoffLocation - 6)
          (by linarith [not_le.mp h6])
        linarith
    exact ⟨by linarith, by simpa using hbound⟩
  · refine ⟨true, _, hb, calculateFareWith_inRegion rt dist _ _ _ hb, ?_⟩
    have := ceil_half_nonneg (dist pickupLocation dropoffLocation) hd
    have h5 : (0.5 : ℚ) = 1 / 2 := by norm_num
    have hbound : (18 : ℚ) ≤ 18 + (⌈dist pickupLocation dropoffLocation / 2⌉ : ℚ) * 0.5 := by
      rw [h5]; linarith
    exact ⟨by linarith, by simpa using hbound⟩

/-- Witness for C10: at distance 0 a rider inside the region is charged a
non-negative fare. -/
theorem calculateFare_nonneg_witness :
    ∃ b f, isWithinBangalore rt0 (coordOf 12.9716 77.5946) = .ok b ∧
      calculateFareWith rt0 (fun _ _ => 0) (.str "MG Road") (.str "MG Road")
        (coordOf 12.9716 77.5946) = .ok f ∧
      0 ≤ f ∧ (if b then 18 ≤ f else 25 ≤ f) :=
  calculateFare_nonneg rt0 (fun _ _ => 0) (.str "MG Road") (.str "MG Road")
    (coordOf 12.9716 77.5946) rfl (le_refl _)

/-! ## Validation and persistence in `POST /book` -/

theorem bookWith_of_falsy (fareOf : JsVal → JsVal → JsVal → Except JsError ℚ) (m : Mongoose)
    (now : Nat) (db : List Booking) (id : String) (body : List (String × JsVal))
    (h : (field body "pickupLocation").truthy = false ∨
      (field body "dropoffLocation").truthy = false ∨
      (field body "userCoords").truthy = false) :
    bookWith fareOf m now db ⟨.verified id, body⟩ =
      (⟨400, "All fields are required.", none⟩, db) := by
  have hcond : (!(field body "pickupLocation").truthy || !(field body "dropoffLocation").truthy ||
      !(field body "userCoords").truthy) = true := by
    rcases h with h | h | h <;> simp [h]
  simp only [bookWith, hcond, if_true]

theorem bookWith_unchanged_or_appended (fareOf : JsVal → JsVal → JsVal → Except JsError ℚ)
    (m : Mongoose) (now : Nat) (db : List Booking) (req : Request) :
    (bookWith fareOf m now db req).2 = db ∨
    ∃ id fare b, req.auth = .verified id ∧
      (field req.body "pickupLocation").truthy = true ∧
      (field req.body "dropoffLocation").truthy = true ∧
      (field req.body "userCoords").truthy = true ∧
      fareOf (field req.body "pickupLocation") (field req.body "dropoffLocation")
        (field req.body "userCoords") = .ok fare ∧
      newBooking m now id (field req.body "pickupLocation") (field req.body "dropoffLocation")
        fare (field req.body "userCoords") = some b ∧
      bookWith fareOf m now db req = (⟨201, "Booking created successfully", some b⟩, db ++ [b]) := by
  unfold bookWith
  split
  · exact Or.inl rfl
  · exact Or.inl rfl
  · rename_i id hauth
    simp only
    split
    · exact Or.inl rfl
    · rename_i hcond
      simp only [Bool.or_eq_true, Bool.not_eq_true', not_or, Bool.not_eq_false] at hcond
      split
      · exact Or.inl rfl
      · rename_i fare hfare
        split
        · exact Or.inl rfl
        · rename_i b hb
          exact Or.inr ⟨id, fare, b, hauth, hcond.1.1, hcond.1.2, hcond.2, hfare, hb, rfl⟩

/-- C11: `POST /book` with a verified token and with pickupLocation,
dropoffLocation or userCoords absent, or with an empty-string label, is answered
with status 400 and leaves the stored bookings unchanged. The answer is given
before the fare is computed: it is the same whatever fare function stands in
place of `calculateFare`. Without a verified token the stored bookings are
unchanged as well. -/
theorem book_missing_field (rt : JsRuntime) (m : Mongoose) (now : Nat) (db : List Booking)
    (id : String) (body : List (String × JsVal))
    (hmissing : field body "pickupLocation" = .undefined ∨ field body "pickupLocation" = .str "" ∨
      field body "dropoffLocation" = .undefined ∨ field body "dropoffLocation" = .str "" ∨
      field body "userCoords" = .undefined) :
    book rt m now db ⟨.verified id, body⟩ = (⟨400, "All fields are required.", none⟩, db) ∧
    (∀ fareOf, bookWith fareOf m now db ⟨.verified id, body⟩ =
      (⟨400, "All fields are required.", none⟩, db)) ∧
    ∀ auth, (book rt m now db ⟨auth, body⟩).2 = db := by
  have hfalsy : (field body "pickupLocation").truthy = false ∨
      (field body "dropoffLocation").truthy = false ∨
      (field body "userCoords").truthy = false := by
    rcases hmissing with h | h | h | h | h <;> simp [h, JsVal.truthy]
  refine ⟨bookWith_of_falsy _ m now db id body hfalsy,
    fun fareOf => bookWith_of_falsy fareOf m now db id body hfalsy, ?_⟩
  intro auth
  cases auth with
  | noToken => rfl
  | invalid => rfl
  | verified id2 =>
    show (bookWith _ m now db ⟨.verified id2, body⟩).2 = db
    rw [bookWith_of_falsy _ m now db id2 body hfalsy]

/-- Witness for C11: a body without userCoords is answered with 400. -/
theorem book_missing_field_witness :
    book rt0 mongoose0 7 [] ⟨.verified "u1",
        [("pickupLocation", .str "MG Road"), ("dropoffLocation", .str "Airport")]⟩ =
      (⟨400, "All fields are required.", none⟩, []) :=
  (book_missing_field rt0 mongoose0 7 [] "u1"
    [("pickupLocation", .str "MG Road"), ("dropoffLocation", .str "Airport")]
    (Or.inr (Or.inr (Or.inr (Or.inr (by simp [field, List.lookup])))))).1

theorem calculateFare_numeric (rt : JsRuntime) (p q c : JsVal) (lat lng : ℚ)
    (hlat : c.prop "latitude" = .ok (.num lat)) (hlng : c.prop "longitude" = .ok (.num lng)) :
    calculateFare rt p q c =
      .ok (if 12.876 ≤ lat ∧ lat ≤ 13.035 ∧ 77.515 ≤ lng ∧ lng ≤ 77.685 then 20.5 else 33) := by
  have hb := isWithinBangalore_numeric rt c lat lng hlat hlng
  by_cases h : 12.876 ≤ lat ∧ lat ≤ 13.035 ∧ 77.515 ≤ lng ∧ lng ≤ 77.685
  · rw [if_pos h]
    exact calculateFare_of_inRegion rt _ _ _ (by rw [hb, decide_eq_true h])
  · rw [if_neg h]
    exact calculateFare_of_outRegion rt _ _ _ (by rw [hb, decide_eq_false h])

theorem truthy_of_prop_num (c : JsVal) (key : String) (q : ℚ)
    (h : c.prop key = .ok (.num q)) : c.truthy = true := by
  cases c <;> first | rfl | simp [JsVal.prop] at h

theorem newBooking_wellformed (m : Mongoose) (now : Nat) (id p d : String) (fare lat lng : ℚ)
    (c : JsVal) (hid : (m.castObjectId id).isSome = true) (hp : p ≠ "") (hd : d ≠ "")
    (hlat : c.prop "latitude" = .ok (.num lat)) (hlng : c.prop "longitude" = .ok (.num lng)) :
    newBooking m now id (.str p) (.str d) fare c =
      some { userId := id, pickupLocation := p, dropoffLocation := d, fare := fare,
             latitude := lat, longitude := lng, status := "Pending", timestamp := now } := by
  obtain ⟨uid, huid⟩ := Option.isSome_iff_exists.mp hid
  have hu : uid = id := m.castObjectId_id id uid huid
  subst hu
  simp only [newBooking, huid, m.castString_str p hp, m.castString_str d hd, m.castNumber_num,
    hlat, hlng]

/-- C12: for every `POST /book` request with a verified token, non-empty string
labels pickupLocation and dropoffLocation and a userCoords object with numeric
latitude and longitude, the fare is computed and, the store accepting the
token's id as an object id, the booking that is persisted has that id as userId,
the request's labels and coordinates, fare equal to
`calculateFare(pickupLocation, dropoffLocation, userCoords)` and status
'Pending'; it is appended to the collection and sent back with status 201. -/
theorem book_persists_request (rt : JsRuntime) (m : Mongoose) (now : Nat) (db : List Booking)
    (id p d : String) (lat lng : ℚ) (body : List (String × JsVal))
    (hid : (m.castObjectId id).isSome = true)
    (hp : field body "pickupLocation" = .str p) (hp0 : p ≠ "")
    (hd : field body "dropoffLocation" = .str d) (hd0 : d ≠ "")
    (hlat : (field body "userCoords").prop "latitude" = .ok (.num lat))
    (hlng : (field body "userCoords").prop "longitude" = .ok (.num lng)) :
    ∃ fare,
      calculateFare rt (field body "pickupLocation") (field body "dropoffLocation")
        (field body "userCoords") = .ok fare ∧
      book rt m now db ⟨.verified id, body⟩ =
        (⟨201, "Booking created successfully",
            some { userId := id, pickupLocation := p, dropoffLocation := d, fare := fare,
                   latitude := lat, longitude := lng, status := "Pending", timestamp := now }⟩,
          db ++ [{ userId := id, pickupLocation := p, dropoffLocation := d, fare := fare,
                   latitude := lat, longitude := lng, status := "Pending", timestamp := now }]) := by
  have hfare := calculateFare_numeric rt (field body "pickupLocation")
    (field body "dropoffLocation") (field body "userCoords") lat lng hlat hlng
  refine ⟨_, hfare, ?_⟩
  have hc := truthy_of_prop_num _ _ _ hlat
  have hnew := newBooking_wellformed m now id p d
    (if 12.876 ≤ lat ∧ lat ≤ 13.035 ∧ 77.515 ≤ lng ∧ lng ≤ 77.685 then 20.5 else 33) lat lng
    (field body "userCoords") hid hp0 hd0 hlat hlng
  have hpt : (field body "pickupLocation").truthy = true := by simp [hp, JsVal.truthy, hp0]
  have hdt : (field body "dropoffLocation").truthy = true := by simp [hd, JsVal.truthy, hd0]
  rw [hp, hd] at hfare
  simp only [book, bookWith, hpt, hdt, hc, Bool.not_true, Bool.or_self, Bool.false_eq_true,
    if_false]
  simp only [hp, hd, hfare, hnew]

/-- Witness for C12: the booking form sent by user "u1" at time 7 is stored with
fare 20.5 and status 'Pending'. -/
theorem book_persists_request_witness :
    ∃ fare,
      calculateFare rt0 (field (formBody (.num 1)) "pickupLocation")
        (field (formBody (.num 1)) "dropoffLocation")
        (field (formBody (.num 1)) "userCoords") = .ok fare ∧
      book rt0 mongoose0 7 [] ⟨.verified "u1", formBody (.num 1)⟩ =
        (⟨201, "Booking created successfully",
            some { userId := "u1", pickupLocation := "MG Road", dropoffLocation := "Airport",
                   fare := fare, latitude := 12.9716, longitude := 77.5946,
                   status := "Pending", timestamp := 7 }⟩,
          [] ++ [{ userId := "u1", pickupLocation := "MG Road", dropoffLocation := "Airport",
                   fare := fare, latitude := 12.9716, longitude := 77.5946,
                   status := "Pending", timestamp := 7 }]) :=
  book_persists_request rt0 mongoose0 7 [] "u1" "MG Road" "Airport" 12.9716 77.5946
    (formBody (.num 1)) rfl (by simp [formBody, field, List.lookup]) (by decide)
    (by simp [formBody, field, List.lookup]) (by decide)
    (by simp [formBody, field, List.lookup, coordOf, JsVal.prop])
    (by simp [formBody, field, List.lookup, coordOf, JsVal.prop])

/-! ## The stored fare as an invariant of the routes -/

theorem newBooking_fields (m : Mongoose) (now : Nat) (id : String) (p d : JsVal) (fare : ℚ)
    (c : JsVal) (b : Booking) (h : newBooking m now id p d fare c = some b) :
    b.fare = fare ∧ ∃ la lo, c.prop "latitude" = .ok la ∧ c.prop "longitude" = .ok lo ∧
      m.castNumber la = some b.latitude ∧ m.castNumber lo = some b.longitude := by
  unfold newBooking at h
  rw [m.castNumber_num] at h
  split at h
  · rename_i uid p1 d1 f la lo _ _ _ hf hla hlo
    split at h
    · rename_i lat lng hlat hlng
      simp only [Option.some.injEq] at h hf
      subst h
      exact ⟨hf.symm, la, lo, hla, hlo, hlat, hlng⟩
    · exact absurd h (by simp)
  · exact absurd h (by simp)

theorem isWithinBangalore_of_cast (rt : JsRuntime) (m : Mongoose)
    (hagree : ∀ v q, m.castNumber v = some q → v.toNumber rt = some q)
    (c la lo : JsVal) (lat lng : ℚ)
    (hla : c.prop "latitude" = .ok la) (hlo : c.prop "longitude" = .ok lo)
    (hlat : m.castNumber la = some lat) (hlng : m.castNumber lo = some lng) :
    isWithinBangalore rt c = isWithinBangalore rt (coordOf lat lng) := by
  have hge : ∀ (v : JsVal) (q x : ℚ), v.toNumber rt = some q →
      v.ge rt x = (JsVal.num q).ge rt x := by
    intro v q x h
    unfold JsVal.ge
    rw [h]
    rfl
  have hle : ∀ (v : JsVal) (q x : ℚ), v.toNumber rt = some q →
      v.le rt x = (JsVal.num q).le rt x := by
    intro v q x h
    unfold JsVal.le
    rw [h]
    rfl
  rw [isWithinBangalore_of_prop rt c la lo hla hlo,
    isWithinBangalore_of_prop rt _ _ _ (coordOf_latitude lat lng) (coordOf_longitude lat lng),
    hge la lat _ (hagree la lat hlat), hle la lat _ (hagree la lat hlat),
    hge lo lng _ (hagree lo lng hlng), hle lo lng _ (hagree lo lng hlng)]

theorem calculateFare_congr (rt : JsRuntime) (p q c p2 q2 c2 : JsVal)
    (h : isWithinBangalore rt c = isWithinBangalore rt c2) :
    calculateFare rt p q c = calculateFare rt p2 q2 c2 := by
  simp only [calculateFare, calculateFareWith, calculateDistance, h]

theorem step_unchanged_or_appended (rt : JsRuntime) (m : Mongoose) (db : List Booking)
    (call : Call) :
    step rt m db call = db ∨
    ∃ now req id fare b, call = .book now req ∧ req.auth = .verified id ∧
      calculateFare rt (field req.body "pickupLocation") (field req.body "dropoffLocation")
        (field req.body "userCoords") = .ok fare ∧
      newBooking m now id (field req.body "pickupLocation") (field req.body "dropoffLocation")
        fare (field req.body "userCoords") = some b ∧
      step rt m db call = db ++ [b] := by
  cases call with
  | book now req =>
    rcases bookWith_unchanged_or_appended (calculateFare rt) m now db req with h | h
    · exact Or.inl h
    · obtain ⟨id, fare, b, hauth, _, _, _, hfare, hb, hbook⟩ := h
      refine Or.inr ⟨now, req, id, fare, b, rfl, hauth, hfare, hb, ?_⟩
      show (bookWith (calculateFare rt) m now db req).2 = db ++ [b]
      rw [hbook]
  | _ => exact Or.inl rfl

theorem step_preserves_fare (rt : JsRuntime) (m : Mongoose)
    (hagree : ∀ v q, m.castNumber v = some q → v.toNumber rt = some q)
    (db : List Booking) (call : Call)
    (hdb : ∀ b ∈ db, calculateFare rt (.str b.pickupLocation) (.str b.dropoffLocation)
      (coordOf b.latitude b.longitude) = .ok b.fare) :
    ∀ b ∈ step rt m db call, calculateFare rt (.str b.pickupLocation) (.str b.dropoffLocation)
      (coordOf b.latitude b.longitude) = .ok b.fare := by
  rcases step_unchanged_or_appended rt m db call with h | h
  · rw [h]; exact hdb
  · obtain ⟨now, req, id, fare, b0, _, _, hfare, hb0, hstep⟩ := h
    rw [hstep]
    intro b hb
    rcases List.mem_append.mp hb with hold | hnew
    · exact hdb b hold
    · have hbb : b = b0 := by simpa using hnew
      subst hbb
      obtain ⟨hf, la, lo, hla, hlo, hlat, hlng⟩ := newBooking_fields m now id _ _ fare _ b hb0
      rw [hf, ← hfare]
      exact calculateFare_congr rt _ _ _ _ _ _
        (isWithinBangalore_of_cast rt m hagree _ la lo _ _ hla hlo hlat hlng).symm

theorem foldl_step_preserves_fare (rt : JsRuntime) (m : Mongoose)
    (hagree : ∀ v q, m.castNumber v = some q → v.toNumber rt = some q)
    (calls : List Call) (db : List Booking)
    (hdb : ∀ b ∈ db, calculateFare rt (.str b.pickupLocation) (.str b.dropoffLocation)
      (coordOf b.latitude b.longitude) = .ok b.fare) :
    ∀ b ∈ calls.foldl (step rt m) db,
      calculateFare rt (.str b.pickupLocation) (.str b.dropoffLocation)
        (coordOf b.latitude b.longitude) = .ok b.fare := by
  induction calls generalizing db with
  | nil => exact hdb
  | cons call rest ih =>
    exact ih (step rt m db call) (step_preserves_fare rt m hagree db call hdb)

/-- C13: in every state reachable from the empty collection through the
server's routes, each stored booking's fare equals `calculateFare` applied to
that booking's own pickupLocation, dropoffLocation and coordinates; and no route
changes an existing booking: the collection after a further call extends the
collection before it. The store's number casting is taken to agree with the
runtime's number conversion. -/
theorem stored_fare_invariant (rt : JsRuntime) (m : Mongoose)
    (hagree : ∀ v q, m.castNumber v = some q → v.toNumber rt = some q)
    (calls : List Call) :
    (∀ b ∈ run rt m calls,
      calculateFare rt (.str b.pickupLocation) (.str b.dropoffLocation)
        (coordOf b.latitude b.longitude) = .ok b.fare) ∧
    ∀ call, run rt m calls <+: run rt m (calls ++ [call]) := by
  refine ⟨foldl_step_preserves_fare rt m hagree calls [] (by simp), ?_⟩
  intro call
  have hrun : run rt m (calls ++ [call]) = step rt m (run rt m calls) call := by
    simp [run, List.foldl_append]
  rw [hrun]
  rcases step_unchanged_or_appended rt m (run rt m calls) call with h | h
  · rw [h]
  · obtain ⟨_, _, _, _, b, _, _, _, _, hstep⟩ := h
    rw [hstep]
    exact List.prefix_append _ _

theorem mongoose0_agrees (v : JsVal) (q : ℚ) (h : mongoose0.castNumber v = some q) :
    v.toNumber rt0 = some q := by
  cases v <;> simp [mongoose0] at h
  simp [JsVal.toNumber, h]

theorem run_sample :
    run rt0 mongoose0
        [.register, .book 7 ⟨.verified "u1", formBody (.num 1)⟩, .bookings (.verified "u1")] =
      [{ userId := "u1", pickupLocation := "MG Road", dropoffLocation := "Airport",
         fare := 20.5, latitude := 12.9716, longitude := 77.5946, status := "Pending",
         timestamp := 7 }] := by
  have h := book_form_creates (.num 1)
  simpa [run, step] using h

/-- Witness for C13: after a registration, a booking from the form and a listing,
the one stored booking carries the fare computed from its own fields. -/
theorem stored_fare_invariant_witness :
    calculateFare rt0 (.str "MG Road") (.str "Airport") (coordOf 12.9716 77.5946) =
      .ok 20.5 :=
  (stored_fare_invariant rt0 mongoose0 mongoose0_agrees
    [.register, .book 7 ⟨.verified "u1", formBody (.num 1)⟩, .bookings (.verified "u1")]).1
    { userId := "u1", pickupLocation := "MG Road", dropoffLocation := "Airport",
      fare := 20.5, latitude := 12.9716, longitude := 77.5946, status := "Pending",
      timestamp := 7 }
    (by rw [run_sample]; exact List.mem_singleton.mpr rfl)

/-! ## `GET /bookings` -/

theorem findByUser_perm (db : List Booking) (userId : String) :
    (findByUser db userId).Perm (db.filter (fun b => b.userId = userId)) :=
  List.perm_insertionSort newerFirst _

theorem findByUser_sorted (db : List Booking) (userId : String) :
    (findByUser db userId).Pairwise (fun a b => b.timestamp ≤ a.timestamp) := by
  haveI : IsTotal Booking newerFirst := ⟨fun a b => Nat.le_total b.timestamp a.timestamp⟩
  haveI : IsTrans Booking newerFirst :=
    ⟨fun a b c (hab : b.timestamp ≤ a.timestamp) (hbc : c.timestamp ≤ b.timestamp) =>
      Nat.le_trans hbc hab⟩
  exact List.sorted_insertionSort newerFirst _

theorem getBookings_verified (m : Mongoose) (db : List Booking) (id : String)
    (hid : (m.castObjectId id).isSome = true) :
    getBookings m db (.verified id) =
      ⟨200, "User bookings retrieved successfully.", findByUser db id⟩ := by
  obtain ⟨uid, huid⟩ := Option.isSome_iff_exists.mp hid
  have hu : uid = id := m.castObjectId_id id uid huid
  subst hu
  simp only [getBookings, huid]

/-- C14: `GET /bookings` for a rider with a verified token, whose id the store
accepts as an object id, answers with status 200 and exactly the stored bookings
whose userId is the rider's id: every such booking and no other, each as often
as it is stored, ordered by timestamp descending. -/
theorem getBookings_exact_sorted (m : Mongoose) (db : List Booking) (id : String)
    (hid : (m.castObjectId id).isSome = true) :
    (getBookings m db (.verified id)).status = 200 ∧
    (∀ b, b ∈ (getBookings m db (.verified id)).bookings ↔ b ∈ db ∧ b.userId = id) ∧
    (getBookings m db (.verified id)).bookings.Perm (db.filter (fun b => b.userId = id)) ∧
    (getBookings m db (.verified id)).bookings.Pairwise
      (fun a b => b.timestamp ≤ a.timestamp) := by
  rw [getBookings_verified m db id hid]
  refine ⟨rfl, ?_, findByUser_perm db id, findByUser_sorted db id⟩
  intro b
  rw [(findByUser_perm db id).mem_iff]
  simp

/-- Witness for C14: rider "u1" gets a listing ordered by timestamp
descending. -/
theorem getBookings_exact_sorted_witness :
    (getBookings mongoose0 sampleDb (.verified "u1")).bookings.Pairwise
      (fun a b => b.timestamp ≤ a.timestamp) :=
  (getBookings_exact_sorted mongoose0 sampleDb "u1" rfl).2.2.2

theorem getBookings_sample :
    (getBookings mongoose0 sampleDb (.verified "u1")).bookings.map (fun b => b.timestamp) =
      [3, 1] := by
  rw [getBookings_verified mongoose0 sampleDb "u1" rfl]
  simp [findByUser, sampleDb, List.filter, List.insertionSort, List.orderedInsert, newerFirst]

/-! ## Zero distance, malformed coordinates and the in-region steps -/

/-- Counterexample to C15: at distance 0 a rider north of the region is charged
25, not 31. -/
theorem calculateFare_zero_outside_is_25 :
    calculateFareWith rt0 (fun _ _ => 0) (.str "Hosur") (.str "Hosur")
      (coordOf 13.5 77.5946) = .ok 25 ∧
    calculateFareWith rt0 (fun _ _ => 0) (.str "Hosur") (.str "Hosur")
      (coordOf 13.5 77.5946) ≠ .ok 31 := by
  have h : calculateFareWith rt0 (fun _ _ => 0) (.str "Hosur") (.str "Hosur")
      (coordOf 13.5 77.5946) = .ok 25 := by
    rw [calculateFareWith_outRegion rt0 _ _ _ _ (outside_example rt0)]
    norm_num
  refine ⟨h, ?_⟩
  rw [h]
  intro h31
  have := Except.ok.inj h31
  norm_num at this

/-- C15, amended: at distance 0 the fare is the tier's base fare, 18 when the
rider coordinate is inside the region and 25 when it is outside. -/
theorem calculateFare_zero_distance (rt : JsRuntime)
    (pickupLocation dropoffLocation userCoords : JsVal) (lat lng : ℚ)
    (hlat : userCoords.prop "latitude" = .ok (.num lat))
    (hlng : userCoords.prop "longitude" = .ok (.num lng)) :
    calculateFareWith rt (fun _ _ => 0) pickupLocation dropoffLocation userCoords =
      .ok (if 12.876 ≤ lat ∧ lat ≤ 13.035 ∧ 77.515 ≤ lng ∧ lng ≤ 77.685 then 18 else 25) := by
  have hb := isWithinBangalore_numeric rt userCoords lat lng hlat hlng
  by_cases h : 12.876 ≤ lat ∧ lat ≤ 13.035 ∧ 77.515 ≤ lng ∧ lng ≤ 77.685
  · rw [if_pos h, calculateFareWith_inRegion rt _ _ _ _ (by rw [hb, decide_eq_true h]),
      ceil_zero_half]
    norm_num
  · rw [if_neg h, calculateFareWith_outRegion rt _ _ _ _ (by rw [hb, decide_eq_false h])]
    norm_num

/-- Witness for C15, amended: the rider (12.9, 77.6) at distance 0. -/
theorem calculateFare_zero_distance_witness :
    calculateFareWith rt0 (fun _ _ => 0) (.str "MG Road") (.str "MG Road") (coordOf 12.9 77.6) =
      .ok (if (12.876 : ℚ) ≤ 12.9 ∧ (12.9 : ℚ) ≤ 13.035 ∧ (77.515 : ℚ) ≤ 77.6 ∧
        (77.6 : ℚ) ≤ 77.685 then 18 else 25) :=
  calculateFare_zero_distance rt0 (.str "MG Road") (.str "MG Road") (coordOf 12.9 77.6) 12.9 77.6
    (coordOf_latitude _ _) (coordOf_longitude _ _)

theorem isWithinBangalore_empty_object (rt : JsRuntime) :
    isWithinBangalore rt (.obj []) = .ok false := by
  rw [isWithinBangalore_of_prop rt (.obj []) .undefined .undefined rfl rfl]
  rfl

/-- C16, the code at the failing input: for the body
{pickupLocation: "MG Road", dropoffLocation: "Airport", userCoords: {}} with a
verified token, the coordinate is treated as out of region and priced 33, and
the request is then answered with the server error 500 (the store rejects the
document), not with a client error. -/
theorem book_empty_coords (rt : JsRuntime) (m : Mongoose) (now : Nat) (db : List Booking)
    (id : String) :
    isWithinBangalore rt (.obj []) = .ok false ∧
    calculateFare rt (.str "MG Road") (.str "Airport") (.obj []) = .ok 33 ∧
    book rt m now db ⟨.verified id,
        [("pickupLocation", .str "MG Road"), ("dropoffLocation", .str "Airport"),
         ("userCoords", .obj [])]⟩ =
      (⟨500, "Error creating booking.", none⟩, db) := by
  have hfare := calculateFare_of_outRegion rt (.str "MG Road") (.str "Airport") (.obj [])
    (isWithinBangalore_empty_object rt)
  refine ⟨isWithinBangalore_empty_object rt, hfare, ?_⟩
  have hnew : newBooking m now id (.str "MG Road") (.str "Airport") 33 (.obj []) = none := by
    cases hb : newBooking m now id (.str "MG Road") (.str "Airport") 33 (.obj []) with
    | none => rfl
    | some b =>
      obtain ⟨_, la, lo, hla, _, hlat, _⟩ := newBooking_fields m now id _ _ 33 _ b hb
      have hu : la = .undefined := by
        have := Except.ok.inj hla
        simpa [List.lookup] using this.symm
      rw [hu, m.castNumber_undefined] at hlat
      exact absurd hlat (by simp)
  simp [book, bookWith, field, List.lookup, JsVal.truthy, hfare, hnew]

/-- C19: the in-region fare is a step function of the distance that rounds up
to the next 2 km boundary: for a rider with numeric coordinates inside the
region, every integer k >= 0 and every distance d with 2k < d <= 2k + 2, the
fare is 18 + 0.5 * (k + 1); a distance of 3 gives 19. -/
theorem calculateFare_in_region_steps (rt : JsRuntime)
    (pickupLocation dropoffLocation userCoords : JsVal) (lat lng : ℚ)
    (hlat : userCoords.prop "latitude" = .ok (.num lat))
    (hlng : userCoords.prop "longitude" = .ok (.num lng))
    (hin : 12.876 ≤ lat ∧ lat ≤ 13.035 ∧ 77.515 ≤ lng ∧ lng ≤ 77.685)
    (k : ℕ) (d : ℚ) (hlo : 2 * (k : ℚ) < d) (hhi : d ≤ 2 * (k : ℚ) + 2) :
    calculateFareWith rt (fun _ _ => d) pickupLocation dropoffLocation userCoords =
      .ok (18 + 0.5 * ((k : ℚ) + 1)) ∧
    calculateFareWith rt (fun _ _ => 3) pickupLocation dropoffLocation userCoords = .ok 19 := by
  have hb : isWithinBangalore rt userCoords = .ok true := by
    rw [isWithinBangalore_numeric rt _ lat lng hlat hlng, decide_eq_true hin]
  have hceil : ∀ (j : ℕ) (x : ℚ), 2 * (j : ℚ) < x → x ≤ 2 * (j : ℚ) + 2 →
      (⌈x / 2⌉ : ℤ) = (j : ℤ) + 1 := by
    intro j x h1 h2
    rw [Int.ceil_eq_iff]
    push_cast
    constructor <;> linarith
  constructor
  · rw [calculateFareWith_inRegion rt _ _ _ _ hb, hceil k d hlo hhi]
    push_cast
    congr 1
    ring
  · rw [calculateFareWith_inRegion rt _ _ _ _ hb, hceil 1 3 (by norm_num) (by norm_num)]
    norm_num

/-- Witness for C19: the rider (12.9716, 77.5946) at distance 5 (k = 2) pays
18 + 0.5 * 3. -/
theorem calculateFare_in_region_steps_witness :
    calculateFareWith rt0 (fun _ _ => 5) (.str "MG Road") (.str "Airport")
      (coordOf 12.9716 77.5946) = .ok (18 + 0.5 * (((2 : ℕ) : ℚ) + 1)) :=
  (calculateFare_in_region_steps rt0 (.str "MG Road") (.str "Airport")
    (coordOf 12.9716 77.5946) 12.9716 77.5946 (coordOf_latitude _ _) (coordOf_longitude _ _)
    (by norm_num) 2 5 (by norm_num) (by norm_num)).1

/-! ## `POST /validate-location` -/

theorem typeof_eq_number_iff (v : JsVal) : v.typeof = "number" ↔ ∃ q, v = .num q := by
  cases v <;> simp [JsVal.typeof]

theorem prop_of_falsy (c : JsVal) (key : String) (v : JsVal) (hc : c.truthy = false)
    (h : c.prop key = .ok v) : v = .undefined := by
  cases c <;> simp [JsVal.truthy] at hc <;> simp [JsVal.prop] at h <;> exact h.symm

theorem validateLocation_of_falsy (rt : JsRuntime) (body : List (String × JsVal))
    (hc : (field body "userCoords").truthy = false) :
    validateLocation rt body = ⟨400, false, "Invalid coordinates provided."⟩ := by
  simp only [validateLocation, hc, Bool.not_false, orElse]

theorem validateLocation_of_truthy (rt : JsRuntime) (body : List (String × JsVal))
    (la lo : JsVal) (hc : (field body "userCoords").truthy = true)
    (hla : (field body "userCoords").prop "latitude" = .ok la)
    (hlo : (field body "userCoords").prop "longitude" = .ok lo) :
    validateLocation rt body =
      if la.typeof ≠ "number" ∨ lo.typeof ≠ "number" then
        ⟨400, false, "Invalid coordinates provided."⟩
      else
        match isWithinBangalore rt (field body "userCoords") with
        | .error _ => ⟨500, false, "Internal Server Error"⟩
        | .ok isValid =>
          ⟨200, isValid,
            if isValid then "Location is within Bangalore."
            else "Pickup location is not within Bangalore."⟩ := by
  simp only [validateLocation, hc, Bool.not_true, orElse, propNotNumber, hla, hlo]
  by_cases h1 : la.typeof = "number" <;> by_cases h2 : lo.typeof = "number" <;>
    simp [h1, h2]

/-- C20: `POST /validate-location` answers with status 400 and isValid = false
exactly when userCoords is absent or its latitude or longitude is not of type
number; in every other case it answers (with status 200) with isValid equal to
`isWithinBangalore(userCoords)`; and the message is
'Location is within Bangalore.' if and only if isValid is true. -/
theorem validateLocation_spec (rt : JsRuntime) (body : List (String × JsVal)) :
    ((field body "userCoords" = .undefined ∨
        (∀ v, (field body "userCoords").prop "latitude" = .ok v → v.typeof ≠ "number") ∨
        (∀ v, (field body "userCoords").prop "longitude" = .ok v → v.typeof ≠ "number")) →
      validateLocation rt body = ⟨400, false, "Invalid coordinates provided."⟩) ∧
    (¬ (field body "userCoords" = .undefined ∨
        (∀ v, (field body "userCoords").prop "latitude" = .ok v → v.typeof ≠ "number") ∨
        (∀ v, (field body "userCoords").prop "longitude" = .ok v → v.typeof ≠ "number")) →
      ∃ isValid, isWithinBangalore rt (field body "userCoords") = .ok isValid ∧
        validateLocation rt body =
          ⟨200, isValid,
            if isValid then "Location is within Bangalore."
            else "Pickup location is not within Bangalore."⟩) ∧
    ((validateLocation rt body).message = "Location is within Bangalore." ↔
      (validateLocation rt body).isValid = true) := by
  by_cases hc : (field body "userCoords").truthy = true
  · obtain ⟨la, hla⟩ := prop_ok_of_not_nullish _ "latitude" (not_nullish_of_truthy _ hc)
    obtain ⟨lo, hlo⟩ := prop_ok_of_not_nullish _ "longitude" (not_nullish_of_truthy _ hc)
    have hne : field body "userCoords" ≠ .undefined := by
      intro h
      rw [h] at hc
      exact absurd hc (by simp [JsVal.truthy])
    have hv := validateLocation_of_truthy rt body la lo hc hla hlo
    by_cases hbad : la.typeof ≠ "number" ∨ lo.typeof ≠ "number"
    · rw [if_pos hbad] at hv
      refine ⟨fun _ => hv, fun hnot => ?_, ?_⟩
      · exfalso
        apply hnot
        rcases hbad with h | h
        · exact Or.inr (Or.inl (fun v hv2 => by
            rw [hla] at hv2; rw [← Except.ok.inj hv2]; exact h))
        · exact Or.inr (Or.inr (fun v hv2 => by
            rw [hlo] at hv2; rw [← Except.ok.inj hv2]; exact h))
      · rw [hv]; simp
    · rw [if_neg hbad] at hv
      have hgood : la.typeof = "number" ∧ lo.typeof = "number" := by
        constructor <;> by_contra h <;> exact hbad (by simp [h])
      obtain ⟨lat, rfl⟩ := (typeof_eq_number_iff la).mp hgood.1
      obtain ⟨lng, rfl⟩ := (typeof_eq_number_iff lo).mp hgood.2
      have hb := isWithinBangalore_numeric rt _ lat lng hla hlo
      rw [hb] at hv
      refine ⟨fun hinv => ?_, fun _ => ⟨_, hb, hv⟩, ?_⟩
      · exfalso
        rcases hinv with h | h | h
        · exact hne h
        · exact h _ hla rfl
        · exact h _ hlo rfl
      · rw [hv]
        by_cases hd : (12.876 ≤ lat ∧ lat ≤ 13.035 ∧ 77.515 ≤ lng ∧ lng ≤ 77.685)
        · simp [decide_eq_true hd]
        · simp [decide_eq_false hd]
  · have hf : (field body "userCoords").truthy = false := by simpa using hc
    have hv := validateLocation_of_falsy rt body hf
    refine ⟨fun _ => hv, fun hnot => ?_, ?_⟩
    · exfalso
      apply hnot
      refine Or.inr (Or.inl (fun v hv2 => ?_))
      rw [prop_of_falsy _ _ v hf hv2]
      simp [JsVal.typeof]
    · rw [hv]; simp

theorem validateLocation_examples :
    validateLocation rt0 [("userCoords", coordOf 12.9716 77.5946)] =
      ⟨200, true, "Location is within Bangalore."⟩ ∧
    validateLocation rt0 [("userCoords", coordOf 200 77.6)] =
      ⟨200, false, "Pickup location is not within Bangalore."⟩ ∧
    validateLocation rt0 [("userCoords", .obj [("latitude", .str "12.9"),
        ("longitude", .num 77.6)])] = ⟨400, false, "Invalid coordinates provided."⟩ ∧
    validateLocation rt0 [] = ⟨400, false, "Invalid coordinates provided."⟩ := by
  refine ⟨?_, ?_, ?_, ?_⟩
  · rw [validateLocation_of_truthy rt0 [("userCoords", coordOf 12.9716 77.5946)]
      (.num 12.9716) (.num 77.5946) (by simp [field, List.lookup, coordOf, JsVal.truthy])
      (by simp [field, List.lookup, coordOf, JsVal.prop])
      (by simp [field, List.lookup, coordOf, JsVal.prop])]
    have h : field [("userCoords", coordOf 12.9716 77.5946)] "userCoords" =
        coordOf 12.9716 77.5946 := by simp [field, List.lookup]
    simp [JsVal.typeof, h, inside_example rt0]
  · rw [validateLocation_of_truthy rt0 [("userCoords", coordOf 200 77.6)]
      (.num 200) (.num 77.6) (by simp [field, List.lookup, coordOf, JsVal.truthy])
      (by simp [field, List.lookup, coordOf, JsVal.prop])
      (by simp [field, List.lookup, coordOf, JsVal.prop])]
    have h : field [("userCoords", coordOf 200 77.6)] "userCoords" = coordOf 200 77.6 := by
      simp [field, List.lookup]
    have hout : isWithinBangalore rt0 (coordOf 200 77.6) = .ok false := by
      rw [isWithinBangalore_numeric rt0 _ _ _ (coordOf_latitude _ _) (coordOf_longitude _ _)]
      norm_num
    simp [JsVal.typeof, h, hout]
  · rw [validateLocation_of_truthy rt0
      [("userCoords", .obj [("latitude", .str "12.9"), ("longitude", .num 77.6)])]
      (.str "12.9") (.num 77.6) (by simp [field, List.lookup, JsVal.truthy])
      (by simp [field, List.lookup, JsVal.prop])
      (by simp [field, List.lookup, JsVal.prop])]
    simp [JsVal.typeof]
  · exact validateLocation_of_falsy rt0 [] rfl

/-! ## The haversine distance of the map booking screen -/

namespace MapBookingScreen

theorem atan2_bounds (y x : ℝ) (hy : 0 ≤ y) (hx : 0 ≤ x) :
    0 ≤ atan2 y x ∧ atan2 y x ≤ Real.pi / 2 := by
  have hpi : 0 < Real.pi := Real.pi_pos
  unfold atan2
  by_cases h1 : 0 < x
  · rw [if_pos h1]
    have hq : 0 ≤ y / x := div_nonneg hy hx
    have h0 : Real.arctan 0 ≤ Real.arctan (y / x) := Real.arctan_strictMono.monotone hq
    rw [Real.arctan_zero] at h0
    exact ⟨h0, le_of_lt (Real.arctan_lt_pi_div_two _)⟩
  · rw [if_neg h1, if_neg (not_lt.mpr hx)]
    by_cases h2 : 0 < y
    · rw [if_pos h2]
      exact ⟨by linarith, le_refl _⟩
    · rw [if_neg h2, if_neg (not_lt.mpr hy)]
      exact ⟨le_refl _, by linarith⟩

theorem toRadians_bounds (deg : ℝ) (hlo : -90 ≤ deg) (hhi : deg ≤ 90) :
    -(Real.pi / 2) ≤ toRadians deg ∧ toRadians deg ≤ Real.pi / 2 := by
  have hpi : 0 < Real.pi := Real.pi_pos
  unfold toRadians
  constructor
  · have : -90 * Real.pi ≤ deg * Real.pi := mul_le_mul_of_nonneg_right hlo hpi.le
    linarith
  · have : deg * Real.pi ≤ 90 * Real.pi := mul_le_mul_of_nonneg_right hhi hpi.le
    linarith

theorem haversine_a_bounds (s t u : ℝ) (hs : 0 ≤ Real.cos s) (ht : 0 ≤ Real.cos t) :
    0 ≤ Real.sin ((t - s) / 2) ^ 2 + Real.cos s * Real.cos t * Real.sin u ^ 2 ∧
    Real.sin ((t - s) / 2) ^ 2 + Real.cos s * Real.cos t * Real.sin u ^ 2 ≤ 1 := by
  have hcc : 0 ≤ Real.cos s * Real.cos t := mul_nonneg hs ht
  have hu0 : 0 ≤ Real.sin u ^ 2 := sq_nonneg _
  have hu1 : Real.sin u ^ 2 ≤ 1 := Real.sin_sq_le_one u
  constructor
  · have := mul_nonneg hcc hu0
    have := sq_nonneg (Real.sin ((t - s) / 2))
    linarith
  · have h1 : Real.cos s * Real.cos t * Real.sin u ^ 2 ≤ Real.cos s * Real.cos t := by
      have := mul_le_mul_of_nonneg_left hu1 hcc
      linarith
    have h2 : Real.sin ((t - s) / 2) ^ 2 = 1 / 2 - Real.cos (t - s) / 2 := by
      rw [Real.sin_sq_eq_half_sub]
      congr 2
      ring_nf
    have h3 : Real.cos (t - s) = Real.cos t * Real.cos s + Real.sin t * Real.sin s :=
      Real.cos_sub t s
    have h4 : Real.cos (t + s) = Real.cos t * Real.cos s - Real.sin t * Real.sin s :=
      Real.cos_add t s
    have h5 : Real.cos (t + s) ≤ 1 := Real.cos_le_one _
    rw [h2, h3]
    nlinarith

theorem distance_self (p : Coords) : distance p p = 0 := by
  simp [distance, toRadians, atan2]

theorem haversine_distance_aux (pickupCoords dropoffCoords : Coords)
    (hp1 : -90 ≤ pickupCoords.latitude) (hp2 : pickupCoords.latitude ≤ 90)
    (hd1 : -90 ≤ dropoffCoords.latitude) (hd2 : dropoffCoords.latitude ≤ 90) :
    ∃ a : ℝ,
      a = Real.sin (toRadians (dropoffCoords.latitude - pickupCoords.latitude) / 2) ^ 2 +
          Real.cos (toRadians pickupCoords.latitude) *
            Real.cos (toRadians dropoffCoords.latitude) *
            Real.sin (toRadians (dropoffCoords.longitude - pickupCoords.longitude) / 2) ^ 2 ∧
      distance pickupCoords dropoffCoords =
        6371 * 2 * atan2 (Real.sqrt a) (Real.sqrt (1 - a)) ∧
      0 ≤ a ∧ a ≤ 1 ∧
      0 ≤ distance pickupCoords dropoffCoords ∧
      distance pickupCoords dropoffCoords ≤ 6371 * Real.pi ∧
      distance pickupCoords pickupCoords = 0 := by
  have hdist : distance pickupCoords dropoffCoords =
      6371 * 2 * atan2
        (Real.sqrt (Real.sin (toRadians (dropoffCoords.latitude - pickupCoords.latitude) / 2) ^ 2 +
          Real.cos (toRadians pickupCoords.latitude) *
            Real.cos (toRadians dropoffCoords.latitude) *
            Real.sin (toRadians (dropoffCoords.longitude - pickupCoords.longitude) / 2) ^ 2))
        (Real.sqrt (1 - (Real.sin (toRadians (dropoffCoords.latitude - pickupCoords.latitude) / 2) ^ 2 +
          Real.cos (toRadians pickupCoords.latitude) *
            Real.cos (toRadians dropoffCoords.latitude) *
            Real.sin (toRadians (dropoffCoords.longitude - pickupCoords.longitude) / 2) ^ 2))) := by
    simp only [distance, R]
    rw [show ∀ x y z w : ℝ, x * x + y * z * w * w = x ^ 2 + y * z * w ^ 2 from
      fun x y z w => by ring]
    ring
  have hsub : toRadians (dropoffCoords.latitude - pickupCoords.latitude) =
      toRadians dropoffCoords.latitude - toRadians pickupCoords.latitude := by
    unfold toRadians
    ring
  have hps := toRadians_bounds pickupCoords.latitude hp1 hp2
  have hds := toRadians_bounds dropoffCoords.latitude hd1 hd2
  have hcp := Real.cos_nonneg_of_neg_pi_div_two_le_of_le hps.1 hps.2
  have hcd := Real.cos_nonneg_of_neg_pi_div_two_le_of_le hds.1 hds.2
  have ha := haversine_a_bounds (toRadians pickupCoords.latitude)
    (toRadians dropoffCoords.latitude)
    (toRadians (dropoffCoords.longitude - pickupCoords.longitude) / 2) hcp hcd
  rw [← hsub] at ha
  have hat := atan2_bounds _ _ (Real.sqrt_nonneg
      (Real.sin (toRadians (dropoffCoords.latitude - pickupCoords.latitude) / 2) ^ 2 +
        Real.cos (toRadians pickupCoords.latitude) *
          Real.cos (toRadians dropoffCoords.latitude) *
          Real.sin (toRadians (dropoffCoords.longitude - pickupCoords.longitude) / 2) ^ 2))
    (Real.sqrt_nonneg
      (1 - (Real.sin (toRadians (dropoffCoords.latitude - pickupCoords.latitude) / 2) ^ 2 +
        Real.cos (toRadians pickupCoords.latitude) *
          Real.cos (toRadians dropoffCoords.latitude) *
          Real.sin (toRadians (dropoffCoords.longitude - pickupCoords.longitude) / 2) ^ 2)))
  refine ⟨_, rfl, hdist, ha.1, ha.2, ?_, ?_, distance_self pickupCoords⟩
  · rw [hdist]
    have := hat.1
    linarith
  · rw [hdist]
    have := hat.2
    linarith

theorem atan2_sqrt_eq_arcsin (a : ℝ) (h0 : 0 ≤ a) (h1 : a ≤ 1) :
    atan2 (Real.sqrt a) (Real.sqrt (1 - a)) = Real.arcsin (Real.sqrt a) := by
  by_cases ha : a = 1
  · subst ha
    simp [atan2, Real.arcsin_one]
  · have hlt : a < 1 := lt_of_le_of_ne h1 ha
    have hx : 0 < Real.sqrt (1 - a) := Real.sqrt_pos.mpr (by linarith)
    have hs1 : Real.sqrt a < 1 := by
      have := Real.sqrt_lt_sqrt h0 hlt
      rwa [Real.sqrt_one] at this
    have hs0 : (0 : ℝ) ≤ Real.sqrt a := Real.sqrt_nonneg a
    have hs : Real.sqrt a ∈ Set.Ioo (-(1 : ℝ)) 1 := ⟨by linarith, hs1⟩
    unfold atan2
    rw [if_pos hx, Real.arcsin_eq_arctan hs, Real.sq_sqrt h0]

/-- C18: read over the real numbers, the haversine distance computed by the map
booking screen for two coordinates in degrees with latitudes in [-90, 90]
(whatever the longitudes, so in particular for longitudes in [-180, 180]) equals
6371 * 2 * atan2(sqrt(a), sqrt(1 - a)) with
a = sin^2(dLat/2) + cos(lat1) * cos(lat2) * sin^2(dLng/2), the angles being the
degrees times pi / 180; a lies in [0, 1], so this is the standard haversine
distance 6371 * 2 * arcsin(sqrt(a)); the distance is >= 0 and at most
6371 * pi, and it is 0 when pickup and dropoff are the same coordinate. -/
theorem haversine_distance_spec (pickupCoords dropoffCoords : Coords)
    (hp1 : -90 ≤ pickupCoords.latitude) (hp2 : pickupCoords.latitude ≤ 90)
    (hd1 : -90 ≤ dropoffCoords.latitude) (hd2 : dropoffCoords.latitude ≤ 90) :
    ∃ a : ℝ,
      a = Real.sin ((dropoffCoords.latitude - pickupCoords.latitude) * Real.pi / 180 / 2) ^ 2 +
          Real.cos (pickupCoords.latitude * Real.pi / 180) *
            Real.cos (dropoffCoords.latitude * Real.pi / 180) *
            Real.sin ((dropoffCoords.longitude - pickupCoords.longitude) * Real.pi / 180 / 2) ^ 2 ∧
      distance pickupCoords dropoffCoords =
        6371 * 2 * atan2 (Real.sqrt a) (Real.sqrt (1 - a)) ∧
      distance pickupCoords dropoffCoords = 6371 * 2 * Real.arcsin (Real.sqrt a) ∧
      0 ≤ a ∧ a ≤ 1 ∧
      0 ≤ distance pickupCoords dropoffCoords ∧
      distance pickupCoords dropoffCoords ≤ 6371 * Real.pi ∧
      distance pickupCoords pickupCoords = 0 := by
  obtain ⟨a, ha, hdist, h0, h1, hpos, hle, hself⟩ :=
    haversine_distance_aux pickupCoords dropoffCoords hp1 hp2 hd1 hd2
  simp only [toRadians] at ha
  refine ⟨a, ha, hdist, ?_, h0, h1, hpos, hle, hself⟩
  rw [hdist, atan2_sqrt_eq_arcsin a h0 h1]

/-- Witness for C18: from (12.9716, 77.5946) to (13.5, 77.6) the distance is
between 0 and 6371 * pi. -/
theorem haversine_distance_spec_witness :
    0 ≤ distance ⟨12.9716, 77.5946⟩ ⟨13.5, 77.6⟩ ∧
    distance ⟨12.9716, 77.5946⟩ ⟨13.5, 77.6⟩ ≤ 6371 * Real.pi := by
  obtain ⟨_, _, _, _, _, _, h0, hpi, _⟩ :=
    haversine_distance_spec ⟨12.9716, 77.5946⟩ ⟨13.5, 77.6⟩
      (by norm_num) (by norm_num) (by norm_num) (by norm_num)
  exact ⟨h0, hpi⟩

end MapBookingScreen

/-! ## The two tiers compared, and the fares shown by the client screens -/

/-- C22: for every distance d >= 0, the in-region fare is strictly smaller than
the out-of-region fare for the same distance:
18 + ceil(d / 2) * 0.5 < (25 + d if d <= 6, else 31 + ceil((d - 6) / 2)),
for any rider the geofence check finds inside and any rider it finds outside. -/
theorem in_region_fare_lt_out_of_region (rt : JsRuntime) (dist : JsVal → JsVal → ℚ)
    (pickupLocation dropoffLocation insideCoords outsideCoords : JsVal)
    (hin : isWithinBangalore rt insideCoords = .ok true)
    (hout : isWithinBangalore rt outsideCoords = .ok false)
    (hd : 0 ≤ dist pickupLocation dropoffLocation) :
    ∃ fIn fOut,
      calculateFareWith rt dist pickupLocation dropoffLocation insideCoords = .ok fIn ∧
      calculateFareWith rt dist pickupLocation dropoffLocation outsideCoords = .ok fOut ∧
      fIn = 18 + (⌈dist pickupLocation dropoffLocation / 2⌉ : ℚ) * 0.5 ∧
      fOut = (if dist pickupLocation dropoffLocation ≤ 6 then
          25 + dist pickupLocation dropoffLocation
        else 31 + (⌈(dist pickupLocation dropoffLocation - 6) / 2⌉ : ℚ)) ∧
      fIn < fOut := by
  have h5 : (0.5 : ℚ) = 1 / 2 := by norm_num
  refine ⟨_, _, calculateFareWith_inRegion rt dist _ _ _ hin,
    calculateFareWith_outRegion rt dist _ _ _ hout, rfl, ?_, ?_⟩
  · by_cases h6 : dist pickupLocation dropoffLocation ≤ 6
    · simp only [if_pos h6]
    · simp only [if_neg h6]
      norm_num
  · by_cases h6 : dist pickupLocation dropoffLocation ≤ 6
    · simp only [if_pos h6]
      have hc : (⌈dist pickupLocation dropoffLocation / 2⌉ : ℤ) ≤ 3 := by
        rw [Int.ceil_le]
        push_cast
        linarith
      have hcq : ((⌈dist pickupLocation dropoffLocation / 2⌉ : ℤ) : ℚ) ≤ 3 := by
        exact_mod_cast hc
      rw [h5]
      linarith
    · simp only [if_neg h6]
      have h6lt : 6 < dist pickupLocation dropoffLocation := not_le.mp h6
      have hc0 := ceil_half_nonneg (dist pickupLocation dropoffLocation - 6) (by linarith)
      have hle : (dist pickupLocation dropoffLocation - 6) / 2 ≤
          ((⌈(dist pickupLocation dropoffLocation - 6) / 2⌉ : ℤ) : ℚ) := Int.le_ceil _
      have hc : (⌈dist pickupLocation dropoffLocation / 2⌉ : ℤ) ≤
          ⌈(dist pickupLocation dropoffLocation - 6) / 2⌉ + 3 := by
        rw [Int.ceil_le]
        push_cast
        linarith
      have hcq : ((⌈dist pickupLocation dropoffLocation / 2⌉ : ℤ) : ℚ) ≤
          ((⌈(dist pickupLocation dropoffLocation - 6) / 2⌉ : ℤ) : ℚ) + 3 := by
        exact_mod_cast hc
      rw [h5]
      linarith

/-- Witness for C22: at distance 7 the rider at (12.9716, 77.5946) pays less
than the rider at (13.5, 77.5946). -/
theorem in_region_fare_lt_out_of_region_witness :
    ∃ fIn fOut,
      calculateFareWith rt0 (fun _ _ => 7) (.str "A") (.str "B") (coordOf 12.9716 77.5946) =
        .ok fIn ∧
      calculateFareWith rt0 (fun _ _ => 7) (.str "A") (.str "B") (coordOf 13.5 77.5946) =
        .ok fOut ∧
      fIn = 18 + (⌈(7 : ℚ) / 2⌉ : ℚ) * 0.5 ∧
      fOut = (if (7 : ℚ) ≤ 6 then 25 + 7 else 31 + (⌈((7 : ℚ) - 6) / 2⌉ : ℚ)) ∧
      fIn < fOut :=
  in_region_fare_lt_out_of_region rt0 (fun _ _ => 7) (.str "A") (.str "B")
    (coordOf 12.9716 77.5946) (coordOf 13.5 77.5946) (inside_example rt0) (outside_example rt0)
    (by norm_num)

theorem calculateFare_values (rt : JsRuntime) (p q c : JsVal) (f : ℚ)
    (h : calculateFare rt p q c = .ok f) : f = 20.5 ∨ f = 33 := by
  cases hb : isWithinBangalore rt c with
  | error e =>
    simp [calculateFare, calculateFareWith, hb] at h
  | ok b =>
    cases b
    · rw [calculateFare_of_outRegion rt p q c hb] at h
      exact Or.inr (Except.ok.inj h).symm
    · rw [calculateFare_of_inRegion rt p q c hb] at h
      exact Or.inl (Except.ok.inj h).symm

theorem displayedFare_values (item : Booking) :
    BookingsScreen.displayedFare item = 18 ∨ BookingsScreen.displayedFare item = 25 := by
  unfold BookingsScreen.displayedFare BookingsScreen.calculateFare
  by_cases h : item.pickupLocation = "Bangalore" ∧ item.dropoffLocation = "Bangalore"
  · exact Or.inl (if_pos h)
  · exact Or.inr (if_neg h)

/-- C23: for every booking created by `POST /book`, the fare the bookings list
screen displays for it (its own `calculateFare` over the location labels, 18 or
25) differs from the fare the server stored in the booking record (20.5 or
33). -/
theorem displayed_fare_differs_from_stored (rt : JsRuntime) (m : Mongoose) (now : Nat)
    (db : List Booking) (req : Request) (b : Booking)
    (hcreated : (book rt m now db req).2 = db ++ [b]) :
    (BookingsScreen.displayedFare b = 18 ∨ BookingsScreen.displayedFare b = 25) ∧
    (b.fare = 20.5 ∨ b.fare = 33) ∧
    BookingsScreen.displayedFare b ≠ b.fare := by
  have hs := calculateFare_values rt _ _ _ b.fare (book_created rt m now db req b hcreated)
  have hdisp := displayedFare_values b
  refine ⟨hdisp, hs, ?_⟩
  rcases hdisp with h1 | h1 <;> rcases hs with h2 | h2 <;> rw [h1, h2] <;> norm_num

/-- Witness for C23: the booking created from the booking form is stored with
fare 20.5 and displayed with another fare. -/
theorem displayed_fare_differs_from_stored_witness :
    BookingsScreen.displayedFare
        { userId := "u1", pickupLocation := "MG Road", dropoffLocation := "Airport",
          fare := 20.5, latitude := 12.9716, longitude := 77.5946, status := "Pending",
          timestamp := 7 } ≠ 20.5 :=
  (displayed_fare_differs_from_stored rt0 mongoose0 7 [] ⟨.verified "u1", formBody (.num 1)⟩
    { userId := "u1", pickupLocation := "MG Road", dropoffLocation := "Airport",
      fare := 20.5, latitude := 12.9716, longitude := 77.5946, status := "Pending",
      timestamp := 7 }
    (by rw [book_form_creates]; rfl)).2.2

theorem book_numeric (rt : JsRuntime) (m : Mongoose) (now : Nat) (db : List Booking)
    (id p d : String) (lat lng : ℚ) (body : List (String × JsVal))
    (hid : (m.castObjectId id).isSome = true)
    (hp : field body "pickupLocation" = .str p) (hp0 : p ≠ "")
    (hd : field body "dropoffLocation" = .str d) (hd0 : d ≠ "")
    (hlat : (field body "userCoords").prop "latitude" = .ok (.num lat))
    (hlng : (field body "userCoords").prop "longitude" = .ok (.num lng)) :
    (book rt m now db ⟨.verified id, body⟩).2 =
      db ++ [{ userId := id, pickupLocation := p, dropoffLocation := d,
               fare := if 12.876 ≤ lat ∧ lat ≤ 13.035 ∧ 77.515 ≤ lng ∧ lng ≤ 77.685
                 then 20.5 else 33,
               latitude := lat, longitude := lng, status := "Pending", timestamp := now }] := by
  have hfare := calculateFare_numeric rt (field body "pickupLocation")
    (field body "dropoffLocation") (field body "userCoords") lat lng hlat hlng
  have hc := truthy_of_prop_num _ _ _ hlat
  have hnew := newBooking_wellformed m now id p d
    (if 12.876 ≤ lat ∧ lat ≤ 13.035 ∧ 77.515 ≤ lng ∧ lng ≤ 77.685 then 20.5 else 33) lat lng
    (field body "userCoords") hid hp0 hd0 hlat hlng
  have hpt : (field body "pickupLocation").truthy = true := by simp [hp, JsVal.truthy, hp0]
  have hdt : (field body "dropoffLocation").truthy = true := by simp [hd, JsVal.truthy, hd0]
  rw [hp, hd] at hfare
  simp only [book, bookWith, hpt, hdt, hc, Bool.not_true, Bool.or_self, Bool.false_eq_true,
    if_false]
  simp only [hp, hd, hfare, hnew]

theorem handleConfirmBooking_body (pickupName dropoffName : String) (fare : JsVal)
    (pickup dropoff : MapBookingScreen.Point) :
    ∃ body p d, MapBookingScreen.handleConfirmBooking pickupName dropoffName fare
        (some pickup) (some dropoff) = some body ∧
      field body "pickupLocation" = .str p ∧ p ≠ "" ∧
      field body "dropoffLocation" = .str d ∧ d ≠ "" ∧
      (field body "userCoords").prop "latitude" = .ok (.num pickup.latitude) ∧
      (field body "userCoords").prop "longitude" = .ok (.num pickup.longitude) := by
  refine ⟨_, if pickupName = "" then "Custom Pickup" else pickupName,
    if dropoffName = "" then "Custom Dropoff" else dropoffName, rfl, ?_, ?_, ?_, ?_, ?_, ?_⟩
  · simp [field, List.lookup]
  · by_cases h : pickupName = "" <;> simp [h]
  · simp [field, List.lookup]
  · by_cases h : dropoffName = "" <;> simp [h]
  · simp [field, List.lookup, MapBookingScreen.Point.toJs, coordOf, JsVal.prop]
  · simp [field, List.lookup, MapBookingScreen.Point.toJs, coordOf, JsVal.prop]

theorem confirmed_booking_fare (rt : JsRuntime) (m : Mongoose) (now : Nat) (db : List Booking)
    (id pickupName dropoffName : String) (fare : JsVal) (pickup dropoff : MapBookingScreen.Point)
    (hid : (m.castObjectId id).isSome = true) :
    ∃ body b, MapBookingScreen.handleConfirmBooking pickupName dropoffName fare
        (some pickup) (some dropoff) = some body ∧
      (book rt m now db ⟨.verified id, body⟩).2 = db ++ [b] ∧
      b.fare = if 12.876 ≤ pickup.latitude ∧ pickup.latitude ≤ 13.035 ∧
          77.515 ≤ pickup.longitude ∧ pickup.longitude ≤ 77.685 then 20.5 else 33 := by
  obtain ⟨body, p, d, hbody, hp, hp0, hd, hd0, hlat, hlng⟩ :=
    handleConfirmBooking_body pickupName dropoffName fare pickup dropoff
  exact ⟨body, _, hbody, book_numeric rt m now db id p d _ _ body hid hp hp0 hd hd0 hlat hlng,
    rfl⟩

/-! ## The fare preview of the map booking screen against the stored fare -/

namespace MapBookingScreen

theorem calculateFare_same_point (c : Coords) (fare : ℝ) :
    calculateFare (some c) (some c) fare = 20.5 := by
  simp [calculateFare, distance_self]

theorem atan2_diag (x : ℝ) (hx : 0 < x) : atan2 x x = Real.pi / 4 := by
  unfold atan2
  rw [if_pos hx, div_self (ne_of_gt hx), Real.arctan_one]

theorem distance_quarter_meridian :
    distance (Point.toCoords ⟨12.9716, 77.5946⟩) (Point.toCoords ⟨-77.0284, 77.5946⟩) =
      6371 * Real.pi / 2 := by
  have hdLat : toRadians (((-77.0284 : ℚ) : ℝ) - ((12.9716 : ℚ) : ℝ)) / 2 = -(Real.pi / 4) := by
    unfold toRadians
    push_cast
    ring
  have hs : Real.sin (-(Real.pi / 4)) * Real.sin (-(Real.pi / 4)) = 1 / 2 := by
    rw [Real.sin_neg, Real.sin_pi_div_four]
    have h2 : Real.sqrt 2 * Real.sqrt 2 = 2 := Real.mul_self_sqrt (by norm_num)
    nlinarith
  have ha : Real.sqrt (1 / 2) > 0 := Real.sqrt_pos.mpr (by norm_num)
  have ht0 : toRadians 0 = 0 := by simp [toRadians]
  simp only [distance, Point.toCoords, hdLat, hs, sub_self, ht0, zero_div,
    Real.sin_zero, mul_zero, add_zero, R]
  rw [show (1 : ℝ) - 1 / 2 = 1 / 2 by norm_num, atan2_diag _ ha]
  ring

theorem calculateFare_quarter_meridian (fare : ℝ) :
    calculateFare (some (Point.toCoords ⟨12.9716, 77.5946⟩))
      (some (Point.toCoords ⟨-77.0284, 77.5946⟩)) fare = 6371 * Real.pi / 2 * 5 := by
  have hpi : 3 < Real.pi := Real.pi_gt_three
  have hfar : ¬ (6371 * Real.pi / 2 < 5) := by
    intro h
    linarith
  simp only [calculateFare, distance_quarter_meridian, if_neg hfar]

end MapBookingScreen

/-- C21: the client-side fare preview and the server-side fare can diverge.
With pickup and dropoff both set to (13.5, 77.5946), north of the region, the
map booking screen previews 20.5 (distance 0, below 5 km) while the server
stores 33 for the booking submitted from the screen; with pickup
(12.9716, 77.5946), inside the region, and dropoff (-77.0284, 77.5946), a
quarter meridian away, the screen previews distance * 5 = 6371 * pi / 2 * 5
while the server stores 20.5. -/
theorem preview_diverges_from_server_fare :
    (∃ pickup dropoff : MapBookingScreen.Point,
      ∀ (rt : JsRuntime) (m : Mongoose) (now : Nat) (db : List Booking)
        (id pickupName dropoffName : String) (sentFare : JsVal) (fare0 : ℝ),
        (m.castObjectId id).isSome = true →
        ∃ body b,
          MapBookingScreen.handleConfirmBooking pickupName dropoffName sentFare
            (some pickup) (some dropoff) = some body ∧
          (book rt m now db ⟨.verified id, body⟩).2 = db ++ [b] ∧
          MapBookingScreen.calculateFare (some pickup.toCoords) (some dropoff.toCoords) fare0 =
            20.5 ∧
          b.fare = 33 ∧
          MapBookingScreen.calculateFare (some pickup.toCoords) (some dropoff.toCoords) fare0 ≠
            ((b.fare : ℚ) : ℝ)) ∧
    (∃ pickup dropoff : MapBookingScreen.Point,
      ∀ (rt : JsRuntime) (m : Mongoose) (now : Nat) (db : List Booking)
        (id pickupName dropoffName : String) (sentFare : JsVal) (fare0 : ℝ),
        (m.castObjectId id).isSome = true →
        ∃ body b,
          MapBookingScreen.handleConfirmBooking pickupName dropoffName sentFare
            (some pickup) (some dropoff) = some body ∧
          (book rt m now db ⟨.verified id, body⟩).2 = db ++ [b] ∧
          MapBookingScreen.calculateFare (some pickup.toCoords) (some dropoff.toCoords) fare0 =
            6371 * Real.pi / 2 * 5 ∧
          b.fare = 20.5 ∧
          MapBookingScreen.calculateFare (some pickup.toCoords) (some dropoff.toCoords) fare0 ≠
            ((b.fare : ℚ) : ℝ)) := by
  constructor
  · refine ⟨⟨13.5, 77.5946⟩, ⟨13.5, 77.5946⟩, ?_⟩
    intro rt m now db id pickupName dropoffName sentFare fare0 hid
    obtain ⟨body, b, hbody, hbook, hfare⟩ := confirmed_booking_fare rt m now db id pickupName
      dropoffName sentFare ⟨13.5, 77.5946⟩ ⟨13.5, 77.5946⟩ hid
    have hb : b.fare = 33 := by
      rw [hfare]
      norm_num
    refine ⟨body, b, hbody, hbook, MapBookingScreen.calculateFare_same_point _ _, hb, ?_⟩
    rw [MapBookingScreen.calculateFare_same_point, hb]
    norm_num
  · refine ⟨⟨12.9716, 77.5946⟩, ⟨-77.0284, 77.5946⟩, ?_⟩
    intro rt m now db id pickupName dropoffName sentFare fare0 hid
    obtain ⟨body, b, hbody, hbook, hfare⟩ := confirmed_booking_fare rt m now db id pickupName
      dropoffName sentFare ⟨12.9716, 77.5946⟩ ⟨-77.0284, 77.5946⟩ hid
    have hb : b.fare = 20.5 := by
      rw [hfare]
      norm_num
    refine ⟨body, b, hbody, hbook, MapBookingScreen.calculateFare_quarter_meridian _, hb, ?_⟩
    rw [MapBookingScreen.calculateFare_quarter_meridian, hb]
    have hpi : 3 < Real.pi := Real.pi_gt_three
    intro h
    have h2 : ((20.5 : ℚ) : ℝ) = 20.5 := by norm_num
    rw [h2] at h
    linarith

end MonacoCabs
